import Mathlib

/-
Verification development for the McRoaster firmware core (the serial build:
src/main.cpp, src/state.cpp, src/safety.cpp, src/hardware.cpp,
src/pid_control.cpp, src/serial_comm.cpp).

Modelling conventions:
- C float values are modelled as rationals. NaN is representable only at the
  raw thermocouple read, which is the only place the firmware produces it:
  thermocouple_read returns Option Rat with none standing for NAN. Every
  other float in the firmware is derived from non-NaN sources and stays a
  plain Rat.
- Unsigned integers (uint8_t, unsigned long, millis) are modelled as Nat.
  uint8_t increments that could wrap are taken mod 256. Subtraction of
  millis values uses truncated Nat subtraction (the firmware only subtracts
  earlier timestamps from later ones).
- File-scope static module state is collected into one Controller record;
  each C function becomes a function on Controller. Functions that call
  serial_send_log or another serial_send_* function also return the list of
  JSON messages they emit on the transport, in order; only the wire type,
  the log level and the source tag of a message are modelled (bodies are
  human-readable formatted strings that no claim depends on). Raw
  Serial.print debugging lines (the pid_control module) are not JSON
  messages and are not modelled.
- millis() is passed in as a parameter (now); the raw 32-bit SPI frames of
  the thermocouple are passed in as parameters, and the thermistor
  conversion (which needs a real logarithm and is claim-irrelevant) is
  passed in as an already-converted temperature.
-/

-- ============== Configuration constants (config.h) ==============

def MAX_CHAMBER_TEMP : ℚ := 260
def WARN_CHAMBER_TEMP : ℚ := 250
def MIN_FAN_WHEN_HEATING : ℕ := 40
def DEFAULT_PREHEAT_TEMP : ℚ := 180
def DEFAULT_ROAST_SETPOINT : ℚ := 200
def COOLING_TARGET_TEMP : ℚ := 50
def PREHEAT_TIMEOUT_MS : ℕ := 900000
def PID_WINDOW_SIZE_MS : ℕ := 2000
def FAN_PREHEAT_DUTY : ℕ := 50
def FAN_ROAST_DEFAULT : ℕ := 90
def FAN_COOLING_DUTY : ℕ := 100
def FAN_ROAST_MIN_DUTY : ℕ := 30
def LPF_ALPHA : ℚ := 0.15
def ROR_SAMPLE_INTERVAL_MS : ℕ := 30000
def PID_KP_AGGRESSIVE : ℚ := 120
def PID_KI_AGGRESSIVE : ℚ := 30
def PID_KD_AGGRESSIVE : ℚ := 60
def PID_KP_CONSERVATIVE : ℚ := 70
def PID_KI_CONSERVATIVE : ℚ := 15
def PID_KD_CONSERVATIVE : ℚ := 10
def PID_THRESHOLD : ℚ := 10
def PID_OUTPUT_MIN : ℚ := 0
def PID_OUTPUT_MAX : ℚ := 255

-- ============== Numeric helpers for C idioms ==============

/-- Arduino map(x, 0, inMax, 0, outMax). Every call site in this firmware
uses inMin = outMin = 0 and a nonnegative x, where C long division is
ordinary truncated Nat division. -/
def arduino_map (x inMax outMax : ℕ) : ℕ := x * outMax / inMax

/-- C cast of a float to int: truncation toward zero. -/
def ctrunc (v : ℚ) : ℤ := if 0 ≤ v then ⌊v⌋ else -⌊-v⌋

/-- C cast of a float to uint8_t, modelled as the int-intermediate
truncation followed by the unsigned-byte reduction mod 256. -/
def u8OfRat (v : ℚ) : ℕ := (ctrunc v % 256).toNat

-- ============== Data model ==============

/-- RoasterState enumeration (state.h); the numeric IDs 0..6 are part of
the external contract. -/
inductive RoasterState
  | OFF | FAN_ONLY | PREHEAT | ROASTING | COOLING | MANUAL | ERROR
deriving Repr, DecidableEq

/-- Numeric state IDs used on the wire (state.h assigns OFF=0 .. ERROR=6). -/
def RoasterState.id : RoasterState → ℕ
  | .OFF => 0 | .FAN_ONLY => 1 | .PREHEAT => 2 | .ROASTING => 3
  | .COOLING => 4 | .MANUAL => 5 | .ERROR => 6

/-- RoasterEvent enumeration (state.h). -/
inductive RoasterEvent
  | NONE | STOP | START_FAN_ONLY | EXIT_FAN_ONLY | START_PREHEAT
  | LOAD_BEANS | END_ROAST | FIRST_CRACK | COOL_COMPLETE | ENTER_MANUAL
  | EXIT_MANUAL | FAULT | CLEAR_FAULT | SET_SETPOINT | SET_FAN_SPEED
  | SET_HEATER_POWER | DISCONNECTED
deriving Repr, DecidableEq

/-- One JSON message on the serial transport: its wire type, and for log
messages the level and the source tag. -/
structure Msg where
  mtype : String
  level : String
  source : String
deriving Repr, DecidableEq

/-- Message produced by serial_send_log. -/
def mlog (level source : String) : Msg := ⟨"log", level, source⟩

/-- Message produced by serial_send_error (serial_comm.cpp line 147). -/
def merror : Msg := ⟨"error", "", ""⟩

/-- Fan module state (hardware.cpp file statics): _fan_enabled, _fan_speed,
_fan_pwm_written, and the level actually driven on the PWM pin PIN_FAN_ENA. -/
structure FanState where
  enabled : Bool
  speed : ℕ
  pwmWritten : ℕ
  pwmPin : ℕ
deriving Repr, DecidableEq

/-- Heater module state (hardware.cpp): _heater_enabled, _heater_power,
_heater_pid_output, _heater_window_start, and the SSR pin level. -/
structure HeaterState where
  enabled : Bool
  power : ℕ
  pidOutput : ℚ
  windowStart : ℕ
  ssr : Bool
deriving Repr, DecidableEq

/-- Thermocouple module state (hardware.cpp): _thermo_fault,
_filtered_temp, _filter_initialized. -/
structure ThermoState where
  fault : ℕ
  filteredTemp : ℚ
  filterInitialized : Bool
deriving Repr, DecidableEq

/-- Rate-of-rise module state (hardware.cpp): _ror_last_temp,
_ror_last_time, _ror_value. -/
structure RorState where
  lastTemp : ℚ
  lastTime : ℕ
  value : ℚ
deriving Repr, DecidableEq

/-- PID module state (pid_control.cpp file statics). -/
structure PidState where
  setpoint : ℚ
  kp : ℚ
  ki : ℚ
  kd : ℚ
  output : ℚ
  integral : ℚ
  lastError : ℚ
  lastInput : ℚ
  enabled : Bool
  lastTime : ℕ
  isAggressive : Bool
deriving Repr, DecidableEq

/-- Safety module fault latch (safety.cpp): _fault_active, _fault_code,
_fault_message, _fault_fatal. The strncpy truncation to 31/127 characters
is not modelled; every code and message in the firmware is shorter. -/
structure SafetyState where
  faultActive : Bool
  faultCode : String
  faultMessage : String
  faultFatal : Bool
deriving Repr, DecidableEq

/-- Debounce counters of safety_check_thermocouple (its function-local
statics): fault_count, good_count, last_fault, warning_logged. -/
structure DebounceState where
  faultCount : ℕ
  goodCount : ℕ
  lastFault : ℕ
  warningLogged : Bool
deriving Repr, DecidableEq

/-- State-machine module state (state.cpp file statics). -/
structure MachineState where
  current : RoasterState
  setpoint : ℚ
  preheatTarget : ℚ
  roastStartTime : ℕ
  preheatStartTime : ℕ
  firstCrackMarked : Bool
  firstCrackTime : ℕ
  errorCode : String
  errorMessage : String
  errorFatal : Bool
  manualFanSpeed : ℕ
  manualHeaterPower : ℕ
  fanOnlySpeed : ℕ
deriving Repr, DecidableEq

/-- The whole firmware state: every file-scope static of the core modules. -/
structure Controller where
  sm : MachineState
  fan : FanState
  heater : HeaterState
  thermo : ThermoState
  ror : RorState
  pid : PidState
  safety : SafetyState
  deb : DebounceState
deriving Repr, DecidableEq

-- ============== Hardware layer (hardware.cpp) ==============

/-- fan_enable: set direction pins, apply the stored speed as PWM. -/
def fan_enable (c : Controller) : Controller × List Msg :=
  let pwm := arduino_map c.fan.speed 100 255
  ({ c with fan := { c.fan with enabled := true, pwmWritten := pwm, pwmPin := pwm } },
   [mlog "info" "HW"])

/-- fan_disable: stop the fan and zero the PWM pin. -/
def fan_disable (c : Controller) : Controller × List Msg :=
  ({ c with fan := { c.fan with enabled := false, pwmWritten := 0, pwmPin := 0 } },
   [mlog "info" "HW"])

/-- fan_set_speed: clamp to 100, record the speed; drive the pin only when
the fan is enabled. -/
def fan_set_speed (percent : ℕ) (c : Controller) : Controller × List Msg :=
  let percent := if percent > 100 then 100 else percent
  if c.fan.enabled then
    let pwm := arduino_map percent 100 255
    ({ c with fan := { c.fan with speed := percent, pwmWritten := pwm, pwmPin := pwm } },
     [mlog "debug" "HW"])
  else
    ({ c with fan := { c.fan with speed := percent } }, [mlog "debug" "HW"])

def fan_get_speed (c : Controller) : ℕ := c.fan.speed

def fan_is_enabled (c : Controller) : Bool := c.fan.enabled

/-- fan_debug_dump: log, then force-write the pins from the current state. -/
def fan_debug_dump (c : Controller) : Controller × List Msg :=
  if c.fan.enabled then
    ({ c with fan := { c.fan with pwmPin := c.fan.pwmWritten } },
     [mlog "debug" "HW", mlog "debug" "HW", mlog "debug" "HW", mlog "debug" "HW", mlog "debug" "HW"])
  else
    ({ c with fan := { c.fan with pwmPin := 0 } },
     [mlog "debug" "HW", mlog "debug" "HW", mlog "debug" "HW", mlog "debug" "HW", mlog "debug" "HW"])

/-- fan_test_direct: drives the pins HIGH for five seconds and then restores
them LOW with PWM 0; only the final pin state is modelled. The logical fan
state (_fan_enabled, _fan_speed, _fan_pwm_written) is not touched. -/
def fan_test_direct (c : Controller) : Controller × List Msg :=
  ({ c with fan := { c.fan with pwmPin := 0 } },
   [mlog "warn" "HW", mlog "debug" "HW", mlog "info" "HW"])

/-- heater_enable: also restarts the time-proportioning window. -/
def heater_enable (now : ℕ) (c : Controller) : Controller × List Msg :=
  ({ c with heater := { c.heater with enabled := true, windowStart := now } },
   [mlog "info" "HW"])

/-- heater_disable: synchronously zero the PID-output shadow, the display
percentage and the SSR pin. -/
def heater_disable (c : Controller) : Controller × List Msg :=
  ({ c with heater := { c.heater with enabled := false, pidOutput := 0, power := 0, ssr := false } },
   [mlog "info" "HW"])

/-- heater_set_power: clamp to 100; store the percentage and the 0..255
equivalent computed with integer map. -/
def heater_set_power (percent : ℕ) (c : Controller) : Controller × List Msg :=
  let percent := if percent > 100 then 100 else percent
  ({ c with heater :=
      { c.heater with
          power := percent
          pidOutput := (arduino_map percent 100 255 : ℚ) } },
   [mlog "debug" "HW"])

/-- heater_set_pid_output: clamp into [0, 255], store, and derive the
display percentage with integer map after the C int cast. -/
def heater_set_pid_output (output : ℚ) (c : Controller) : Controller :=
  let output := if output < 0 then 0 else output
  let output := if output > 255 then 255 else output
  { c with heater :=
      { c.heater with
          pidOutput := output
          power := arduino_map (ctrunc output).toNat 255 100 } }

/-- heater_update: time-proportioning window for the SSR. -/
def heater_update (now : ℕ) (c : Controller) : Controller :=
  if ¬c.heater.enabled then
    { c with heater := { c.heater with ssr := false } }
  else
    let windowTime := now - c.heater.windowStart
    let (c, windowTime) :=
      if windowTime ≥ PID_WINDOW_SIZE_MS then
        ({ c with heater := { c.heater with windowStart := now } }, 0)
      else (c, windowTime)
    let onTime := arduino_map (ctrunc c.heater.pidOutput).toNat 255 PID_WINDOW_SIZE_MS
    { c with heater := { c.heater with ssr := windowTime < onTime } }

def heater_get_power (c : Controller) : ℕ := c.heater.power

def heater_is_enabled (c : Controller) : Bool := c.heater.enabled

-- ============== Thermocouple acquisition (hardware.cpp) ==============

/-- Retry selection of thermocouple_read: read twice; if the fault and
fault-flag bits (mask 0x10007) differ, take a third read. -/
def tc_select (r1 r2 r3 : ℕ) : ℕ :=
  if (r1 &&& 0x10007) ≠ (r2 &&& 0x10007) then r3 else r1

/-- Decoding of the signed 14-bit thermocouple value in bits 31..18 of a
MAX31855 frame, at 0.25 degC resolution; sign-extension of the int16. -/
def tc_decode_temp (raw : ℕ) : ℚ :=
  let t14 := (raw >>> 18) &&& 0x3FFF
  let t : ℤ := if t14 &&& 0x2000 ≠ 0 then (t14 : ℤ) - 0x4000 else (t14 : ℤ)
  (t : ℚ) * 0.25

/-- thermocouple_read: on a fault frame (bit 16 set) latch the low three
fault bits into _thermo_fault and return NAN (modelled none); otherwise
clear the fault register and return the decoded temperature. -/
def thermocouple_read (r1 r2 r3 : ℕ) (c : Controller) : Controller × Option ℚ :=
  let raw := tc_select r1 r2 r3
  if raw &&& 0x10000 ≠ 0 then
    ({ c with thermo := { c.thermo with fault := raw &&& 0x07 } }, none)
  else
    ({ c with thermo := { c.thermo with fault := 0 } }, some (tc_decode_temp raw))

def thermocouple_get_fault (c : Controller) : ℕ := c.thermo.fault

/-- thermocouple_read_filtered: exponential moving average; on a NAN raw
read return the last filtered value unchanged; the first valid sample seeds
the filter. -/
def thermocouple_read_filtered (r1 r2 r3 : ℕ) (c : Controller) : Controller × ℚ :=
  let (c, raw) := thermocouple_read r1 r2 r3 c
  match raw with
  | none => (c, c.thermo.filteredTemp)
  | some v =>
    if ¬c.thermo.filterInitialized then
      ({ c with thermo := { c.thermo with filteredTemp := v, filterInitialized := true } }, v)
    else
      let f := LPF_ALPHA * v + (1 - LPF_ALPHA) * c.thermo.filteredTemp
      ({ c with thermo := { c.thermo with filteredTemp := f } }, f)

/-- calculate_ror: windowed difference over 30 s; latches on the first call
and re-latches when the window closes; returns the last computed value in
between. -/
def calculate_ror (now r1 r2 r3 : ℕ) (c : Controller) : Controller × ℚ :=
  let (c, currentTemp) := thermocouple_read_filtered r1 r2 r3 c
  if c.ror.lastTime = 0 then
    ({ c with ror := { c.ror with lastTemp := currentTemp, lastTime := now } }, 0)
  else
    let elapsed := now - c.ror.lastTime
    if elapsed ≥ ROR_SAMPLE_INTERVAL_MS then
      let deltaTemp := currentTemp - c.ror.lastTemp
      let deltaMinutes := (elapsed : ℚ) / 60000
      let v := deltaTemp / deltaMinutes
      ({ c with ror := { lastTemp := currentTemp, lastTime := now, value := v } }, v)
    else
      (c, c.ror.value)

def reset_ror (c : Controller) : Controller :=
  { c with ror := { lastTemp := 0, lastTime := 0, value := 0 } }

-- ============== PID controller (pid_control.cpp) ==============

/-- Initial PID module state (pid_init). -/
def pidInit : PidState :=
  { setpoint := DEFAULT_ROAST_SETPOINT
    kp := PID_KP_CONSERVATIVE, ki := PID_KI_CONSERVATIVE, kd := PID_KD_CONSERVATIVE
    output := 0, integral := 0, lastError := 0, lastInput := 0
    enabled := false, lastTime := 0, isAggressive := false }

def pid_set_setpoint (v : ℚ) (p : PidState) : PidState := { p with setpoint := v }

def pid_set_aggressive_tunings (p : PidState) : PidState :=
  { p with kp := PID_KP_AGGRESSIVE, ki := PID_KI_AGGRESSIVE, kd := PID_KD_AGGRESSIVE,
           isAggressive := true }

def pid_set_conservative_tunings (p : PidState) : PidState :=
  { p with kp := PID_KP_CONSERVATIVE, ki := PID_KI_CONSERVATIVE, kd := PID_KD_CONSERVATIVE,
           isAggressive := false }

/-- pid_auto_tune: aggressive when the absolute error exceeds the
threshold, conservative once it is back within it. -/
def pid_auto_tune (currentTemp : ℚ) (p : PidState) : PidState :=
  let error := |p.setpoint - currentTemp|
  if error > PID_THRESHOLD ∧ ¬p.isAggressive then pid_set_aggressive_tunings p
  else if error ≤ PID_THRESHOLD ∧ p.isAggressive then pid_set_conservative_tunings p
  else p

/-- pid_update: one PID step. Disabled forces output 0; the first call
after enable or reset only latches time and input; dt ≤ 0 skips the tick;
otherwise P + anti-windup I + derivative-on-measurement, with the final
output clamped into [PID_OUTPUT_MIN, PID_OUTPUT_MAX]. -/
def pid_update (now : ℕ) (currentTemp : ℚ) (p : PidState) : PidState :=
  if ¬p.enabled then { p with output := 0 }
  else if p.lastTime = 0 then
    { p with lastTime := now, lastInput := currentTemp,
             lastError := p.setpoint - currentTemp }
  else
    let dt : ℚ := ((now - p.lastTime : ℕ) : ℚ) / 1000
    if dt ≤ 0 then p
    else
      let error := p.setpoint - currentTemp
      let p := pid_auto_tune currentTemp p
      let pTerm := p.kp * error
      let integral := p.integral + error * dt
      let maxIntegral := PID_OUTPUT_MAX / p.ki
      let integral := if integral > maxIntegral then maxIntegral else integral
      let integral := if integral < -maxIntegral then -maxIntegral else integral
      let iTerm := p.ki * integral
      let dInput := (currentTemp - p.lastInput) / dt
      let dTerm := -p.kd * dInput
      let output := pTerm + iTerm + dTerm
      let output := if output > PID_OUTPUT_MAX then PID_OUTPUT_MAX else output
      let output := if output < PID_OUTPUT_MIN then PID_OUTPUT_MIN else output
      { p with output := output, integral := integral,
               lastTime := now, lastInput := currentTemp, lastError := error }

def pid_get_output (p : PidState) : ℚ := p.output

def pid_reset (p : PidState) : PidState :=
  { p with integral := 0, lastError := 0, lastInput := 0, lastTime := 0, output := 0 }

def pid_enable (p : PidState) : PidState := { p with enabled := true, lastTime := 0 }

def pid_disable (p : PidState) : PidState := { p with enabled := false, output := 0 }

def pid_is_enabled (p : PidState) : Bool := p.enabled

-- ============== State accessors (state.cpp) ==============

def state_get_current (c : Controller) : RoasterState := c.sm.current

def state_get_name : RoasterState → String
  | .OFF => "OFF" | .FAN_ONLY => "FAN_ONLY" | .PREHEAT => "PREHEAT"
  | .ROASTING => "ROASTING" | .COOLING => "COOLING" | .MANUAL => "MANUAL"
  | .ERROR => "ERROR"

/-- state_get_setpoint reports the preheat target while in PREHEAT. -/
def state_get_setpoint (c : Controller) : ℚ :=
  if c.sm.current = .PREHEAT then c.sm.preheatTarget else c.sm.setpoint

def state_get_preheat_target (c : Controller) : ℚ := c.sm.preheatTarget

def state_get_fan_speed (c : Controller) : ℕ := fan_get_speed c

def state_get_heater_power (c : Controller) : ℕ := heater_get_power c

/-- state_get_roast_time_ms: elapsed session time from PREHEAT through
COOLING, zero elsewhere or when the session timer is unset. -/
def state_get_roast_time_ms (now : ℕ) (c : Controller) : ℕ :=
  if (c.sm.current = .PREHEAT ∨ c.sm.current = .ROASTING ∨ c.sm.current = .COOLING)
      ∧ c.sm.roastStartTime > 0 then
    now - c.sm.roastStartTime
  else 0

def state_is_first_crack_marked (c : Controller) : Bool := c.sm.firstCrackMarked

def state_get_first_crack_time_ms (c : Controller) : ℕ := c.sm.firstCrackTime

def state_is_pid_enabled (c : Controller) : Bool :=
  c.sm.current == .PREHEAT || c.sm.current == .ROASTING

def state_allows_setpoint_change (c : Controller) : Bool :=
  c.sm.current == .OFF || c.sm.current == .PREHEAT || c.sm.current == .ROASTING

def state_allows_fan_change (c : Controller) : Bool :=
  c.sm.current == .FAN_ONLY || c.sm.current == .PREHEAT ||
  c.sm.current == .ROASTING || c.sm.current == .MANUAL

def state_allows_heater_change (c : Controller) : Bool :=
  c.sm.current == .MANUAL

-- ============== Phase entry and exit (state.cpp) ==============

/-- The static _exit_state: only leaving MANUAL has a side effect
(_manual_heater_power := 0); every branch logs one debug line. The leading
underscore of the C name is dropped. -/
def exit_state (old : RoasterState) (c : Controller) : Controller × List Msg :=
  match old with
  | .MANUAL => ({ c with sm := { c.sm with manualHeaterPower := 0 } }, [mlog "debug" "STATE"])
  | _ => (c, [mlog "debug" "STATE"])

/-- The static _enter_state: no-op when the target equals the current
phase; otherwise runs the exit action, switches the phase and runs the
entry actions of the target phase. -/
def enter_state (now : ℕ) (newState : RoasterState) (c : Controller) : Controller × List Msg :=
  if newState = c.sm.current then (c, []) else
  let (c, ms) := exit_state c.sm.current c
  let c := { c with sm := { c.sm with current := newState } }
  let ms := ms ++ [mlog "info" "STATE"]
  match newState with
  | .OFF =>
    let (c, m1) := fan_disable c
    let (c, m2) := heater_disable c
    let c := { c with pid := pid_disable c.pid }
    let c := { c with sm :=
        { c.sm with roastStartTime := 0, firstCrackMarked := false, firstCrackTime := 0 } }
    let c := reset_ror c
    (c, ms ++ m1 ++ m2)
  | .FAN_ONLY =>
    let (c, m1) := heater_disable c
    let c := { c with pid := pid_disable c.pid }
    let (c, m2) := fan_set_speed c.sm.fanOnlySpeed c
    let (c, m3) := fan_enable c
    (c, ms ++ m1 ++ m2 ++ m3 ++ [mlog "info" "STATE"])
  | .PREHEAT =>
    let c := { c with sm := { c.sm with roastStartTime := now, preheatStartTime := now } }
    let (c, m1) := fan_set_speed FAN_PREHEAT_DUTY c
    let (c, m2) := fan_enable c
    let c := { c with pid := pid_enable (pid_reset (pid_set_setpoint c.sm.preheatTarget c.pid)) }
    let (c, m3) := heater_enable now c
    (c, ms ++ m1 ++ m2 ++ m3 ++ [mlog "info" "STATE"])
  | .ROASTING =>
    let c := { c with sm := { c.sm with firstCrackMarked := false, firstCrackTime := 0 } }
    let c := { c with pid := pid_enable (pid_reset (pid_set_setpoint c.sm.setpoint c.pid)) }
    let (c, m1) := fan_set_speed FAN_ROAST_DEFAULT c
    let (c, m2) := fan_enable c
    let (c, m3) := heater_enable now c
    let c := reset_ror c
    (c, ms ++ m1 ++ m2 ++ m3 ++ [mlog "info" "STATE"])
  | .COOLING =>
    let (c, m1) := heater_disable c
    let c := { c with pid := pid_disable c.pid }
    let (c, m2) := fan_set_speed FAN_COOLING_DUTY c
    let (c, m3) := fan_enable c
    (c, ms ++ m1 ++ m2 ++ m3 ++ [mlog "info" "STATE"])
  | .MANUAL =>
    let c := { c with sm := { c.sm with manualFanSpeed := 50, manualHeaterPower := 0 } }
    let (c, m1) := fan_set_speed c.sm.manualFanSpeed c
    let (c, m2) := fan_enable c
    let (c, m3) := heater_set_power 0 c
    let (c, m4) := heater_enable now c
    let c := { c with pid := pid_disable c.pid }
    (c, ms ++ m1 ++ m2 ++ m3 ++ m4 ++ [mlog "info" "STATE"])
  | .ERROR =>
    let (c, m1) := fan_disable c
    let (c, m2) := heater_disable c
    let c := { c with pid := pid_disable c.pid }
    (c, ms ++ m1 ++ m2 ++ [mlog "error" "STATE"])

/-- state_enter_error: called by the safety module; stores the error record
and forces the ERROR phase. -/
def state_enter_error (now : ℕ) (code message : String) (fatal : Bool) (c : Controller) :
    Controller × List Msg :=
  let c := { c with sm :=
      { c.sm with errorCode := code, errorMessage := message, errorFatal := fatal } }
  enter_state now .ERROR c

-- ============== Safety system (safety.cpp) ==============

/-- safety_clear_fault: unlatch and clear the fault record. -/
def safety_clear_fault (c : Controller) : Controller × List Msg :=
  ({ c with safety := { faultActive := false, faultCode := "", faultMessage := "", faultFatal := false } },
   [mlog "info" "SAFETY"])

/-- safety_trigger_fault: ignored while a fault is already latched;
otherwise latch the fault record, log, and force the ERROR phase through
state_enter_error. -/
def safety_trigger_fault (now : ℕ) (code message : String) (fatal : Bool) (c : Controller) :
    Controller × List Msg :=
  if c.safety.faultActive then (c, []) else
  let c := { c with safety :=
      { faultActive := true, faultCode := code, faultMessage := message, faultFatal := fatal } }
  let (c, ms) := state_enter_error now code message fatal c
  (c, [mlog "error" "SAFETY"] ++ ms)

/-- safety_check_chamber_temp: latch OVER_TEMP_CHAMBER at or above 260 degC;
log a warning at or above 250 degC. The isnan guard of the source cannot
fire in this model: the filtered reading is never NaN (see
thermocouple_read_filtered). -/
def safety_check_chamber_temp (now : ℕ) (temp : ℚ) (c : Controller) :
    Controller × Bool × List Msg :=
  if temp ≥ MAX_CHAMBER_TEMP then
    let (c, ms) := safety_trigger_fault now "OVER_TEMP_CHAMBER"
        "Chamber temperature exceeded maximum safe limit" true c
    (c, false, ms)
  else if temp ≥ WARN_CHAMBER_TEMP then
    (c, true, [mlog "warn" "SAFETY"])
  else (c, true, [])

/-- safety_check_fan_for_heater: the source triggers FAN_INTERLOCK only
when the fan speed is below MIN_FAN_WHEN_HEATING AND the fan is disabled
(an AND of the two conditions, faithful to safety.cpp line 133). -/
def safety_check_fan_for_heater (now : ℕ) (fanPercent : ℕ) (heaterOn : Bool) (c : Controller) :
    Controller × Bool × List Msg :=
  if ¬heaterOn then (c, true, [])
  else if fanPercent < MIN_FAN_WHEN_HEATING ∧ ¬fan_is_enabled c then
    let (c, ms) := safety_trigger_fault now "FAN_INTERLOCK"
        "Fan speed too low or disabled while heater is on" true c
    (c, false, ms)
  else (c, true, [])

/-- safety_check_thermocouple: debounced fault detection with the
function-local static counters held in DebounceState. FAULT_THRESHOLD = 10
consecutive reads of the same nonzero mask are needed before acting;
GOOD_THRESHOLD = 3 consecutive clean reads clear the counters. A persistent
critical fault (open circuit, short to VCC, or unknown) latches
THERMOCOUPLE_FAULT only while the heater is enabled; otherwise it is logged
once as a warning. Short to GND is never critical. -/
def safety_check_thermocouple (now : ℕ) (c : Controller) : Controller × Bool × List Msg :=
  let fault := thermocouple_get_fault c
  if fault = 0 then
    let goodCount := (c.deb.goodCount + 1) % 256
    if goodCount ≥ 3 then
      ({ c with deb := { faultCount := 0, goodCount := 0, lastFault := 0, warningLogged := false } },
       true, [])
    else
      ({ c with deb := { c.deb with goodCount := goodCount } }, true, [])
  else
    let deb := { c.deb with goodCount := 0 }
    let deb :=
      if fault = deb.lastFault then { deb with faultCount := (deb.faultCount + 1) % 256 }
      else { deb with faultCount := 1, lastFault := fault, warningLogged := false }
    let c := { c with deb := deb }
    if deb.faultCount < 10 then (c, true, [])
    else
      let faultType :=
        if fault &&& 0x01 ≠ 0 then "Open circuit - thermocouple disconnected"
        else if fault &&& 0x02 ≠ 0 then "Short to GND"
        else if fault &&& 0x04 ≠ 0 then "Short to VCC"
        else "Unknown thermocouple fault"
      let isCritical :=
        if fault &&& 0x01 ≠ 0 then true
        else if fault &&& 0x02 ≠ 0 then false
        else true
      if isCritical ∧ heater_is_enabled c then
        let (c, ms) := safety_trigger_fault now "THERMOCOUPLE_FAULT"
            (String.append "Thermocouple fault: " faultType) true c
        (c, false, ms)
      else if ¬c.deb.warningLogged then
        ({ c with deb := { c.deb with warningLogged := true } }, true, [mlog "warn" "SAFETY"])
      else (c, true, [])

/-- safety_update: short-circuits while a fault is latched, else runs the
checks in order (chamber temperature, fan-heater interlock, thermocouple),
each aborting the rest on failure. The raw frames of the one thermocouple
acquisition this tick are inputs. -/
def safety_update (now r1 r2 r3 : ℕ) (c : Controller) : Controller × Bool × List Msg :=
  if c.safety.faultActive then (c, false, []) else
  let (c, chamberTemp) := thermocouple_read_filtered r1 r2 r3 c
  let (c, ok, ms1) := safety_check_chamber_temp now chamberTemp c
  if ¬ok then (c, false, ms1) else
  let (c, ok, ms2) := safety_check_fan_for_heater now (fan_get_speed c) (heater_is_enabled c) c
  if ¬ok then (c, false, ms1 ++ ms2) else
  let (c, ok, ms3) := safety_check_thermocouple now c
  if ¬ok then (c, false, ms1 ++ ms2 ++ ms3) else
  (c, true, ms1 ++ ms2 ++ ms3)

-- ============== Event handling (state.cpp state_handle_event) ==============

/-- state_handle_event: the full event dispatcher. Each call first logs one
debug line; events not accepted in the current phase leave the controller
unchanged. The value parameter defaults to 0 at C call sites that omit it. -/
def state_handle_event (now : ℕ) (event : RoasterEvent) (value : ℚ) (c : Controller) :
    Controller × List Msg :=
  let ms0 := [mlog "debug" "STATE"]
  match event with
  | .STOP =>
    if c.sm.current ≠ .OFF ∧ c.sm.current ≠ .ERROR then
      let (c, ms) := enter_state now .OFF c
      (c, ms0 ++ ms)
    else (c, ms0)
  | .START_FAN_ONLY =>
    if c.sm.current = .OFF then
      let c :=
        if 0 < value ∧ value ≤ 100 then
          { c with sm := { c.sm with fanOnlySpeed := u8OfRat value } }
        else c
      let (c, ms) := enter_state now .FAN_ONLY c
      (c, ms0 ++ ms)
    else (c, ms0)
  | .EXIT_FAN_ONLY =>
    if c.sm.current = .FAN_ONLY then
      let (c, ms) := enter_state now .OFF c
      (c, ms0 ++ ms)
    else (c, ms0)
  | .START_PREHEAT =>
    if c.sm.current = .OFF ∨ c.sm.current = .FAN_ONLY then
      let c := if 0 < value then { c with sm := { c.sm with preheatTarget := value } } else c
      let (c, ms) := enter_state now .PREHEAT c
      (c, ms0 ++ ms)
    else (c, ms0)
  | .LOAD_BEANS =>
    if c.sm.current = .PREHEAT then
      let c := if 0 < value then { c with sm := { c.sm with setpoint := value } } else c
      let (c, ms) := enter_state now .ROASTING c
      (c, ms0 ++ ms)
    else (c, ms0)
  | .END_ROAST =>
    if c.sm.current = .ROASTING then
      let (c, ms) := enter_state now .COOLING c
      (c, ms0 ++ ms)
    else (c, ms0)
  | .FIRST_CRACK =>
    if c.sm.current = .ROASTING ∧ ¬c.sm.firstCrackMarked then
      ({ c with sm :=
          { c.sm with firstCrackMarked := true, firstCrackTime := now - c.sm.roastStartTime } },
       ms0 ++ [mlog "info" "STATE"])
    else (c, ms0)
  | .COOL_COMPLETE =>
    if c.sm.current = .COOLING then
      let (c, ms) := enter_state now .OFF c
      (c, ms0 ++ ms)
    else (c, ms0)
  | .ENTER_MANUAL =>
    if c.sm.current = .OFF then
      let (c, ms) := enter_state now .MANUAL c
      (c, ms0 ++ ms)
    else (c, ms0)
  | .EXIT_MANUAL =>
    if c.sm.current = .MANUAL then
      let (c, ms) := enter_state now .OFF c
      (c, ms0 ++ ms)
    else (c, ms0)
  | .FAULT => (c, ms0)
  | .CLEAR_FAULT =>
    if c.sm.current = .ERROR then
      let (c, msC) := safety_clear_fault c
      let c := { c with sm :=
          { c.sm with errorCode := "", errorMessage := "", errorFatal := false } }
      let (c, ms) := enter_state now .OFF c
      (c, ms0 ++ msC ++ ms)
    else (c, ms0)
  | .SET_SETPOINT =>
    if state_allows_setpoint_change c ∧ 0 < value then
      let c := { c with sm := { c.sm with setpoint := value } }
      if c.sm.current = .PREHEAT then
        let c := { c with sm := { c.sm with preheatTarget := value },
                          pid := pid_set_setpoint value c.pid }
        (c, ms0 ++ [mlog "info" "STATE"])
      else if c.sm.current = .ROASTING then
        ({ c with pid := pid_set_setpoint value c.pid }, ms0 ++ [mlog "info" "STATE"])
      else
        (c, ms0 ++ [mlog "info" "STATE"])
    else (c, ms0)
  | .SET_FAN_SPEED =>
    if state_allows_fan_change c then
      let speed := u8OfRat value
      let speed := if speed > 100 then 100 else speed
      if c.sm.current = .MANUAL then
        let c := { c with sm := { c.sm with manualFanSpeed := speed } }
        let (c, ms1) := fan_set_speed speed c
        (c, ms0 ++ ms1 ++ [mlog "info" "STATE"])
      else if c.sm.current = .FAN_ONLY then
        let c := { c with sm := { c.sm with fanOnlySpeed := speed } }
        let (c, ms1) := fan_set_speed speed c
        (c, ms0 ++ ms1 ++ [mlog "info" "STATE"])
      else if c.sm.current = .PREHEAT ∨ c.sm.current = .ROASTING then
        let speed := if speed < FAN_ROAST_MIN_DUTY then FAN_ROAST_MIN_DUTY else speed
        let (c, ms1) := fan_set_speed speed c
        (c, ms0 ++ ms1 ++ [mlog "info" "STATE"])
      else
        (c, ms0 ++ [mlog "info" "STATE"])
    else (c, ms0)
  | .SET_HEATER_POWER =>
    if state_allows_heater_change c ∧ c.sm.current = .MANUAL then
      let power := u8OfRat value
      let power := if power > 100 then 100 else power
      let c := { c with sm := { c.sm with manualHeaterPower := power } }
      let (c, ms1) := heater_set_power power c
      (c, ms0 ++ ms1 ++ [mlog "info" "STATE"])
    else (c, ms0)
  | .DISCONNECTED =>
    if c.sm.current = .ROASTING ∨ c.sm.current = .PREHEAT then
      let (c, ms) := enter_state now .COOLING c
      (c, ms0 ++ [mlog "warn" "STATE"] ++ ms)
    else if c.sm.current = .MANUAL ∨ c.sm.current = .FAN_ONLY then
      let (c, ms) := enter_state now .OFF c
      (c, ms0 ++ [mlog "info" "STATE"] ++ ms)
    else (c, ms0)
  | .NONE => (c, ms0)

-- ============== Per-tick phase bodies (state.cpp state_update) ==============

/-- state_update: one tick of the current phase body. Every tick first
takes a filtered temperature reading (the raw frames are inputs). PREHEAT
and ROASTING run the PID into the heater and advance the SSR window;
PREHEAT additionally latches PREHEAT_TIMEOUT after 15 minutes; COOLING
self-emits COOL_COMPLETE below 50 degC; MANUAL advances the SSR window. -/
def state_update (now r1 r2 r3 : ℕ) (c : Controller) : Controller × List Msg :=
  let (c, chamberTemp) := thermocouple_read_filtered r1 r2 r3 c
  match c.sm.current with
  | .PREHEAT =>
    let c := { c with pid := pid_update now chamberTemp c.pid }
    let c := heater_set_pid_output (pid_get_output c.pid) c
    let c := heater_update now c
    if now - c.sm.preheatStartTime > PREHEAT_TIMEOUT_MS then
      safety_trigger_fault now "PREHEAT_TIMEOUT" "Preheat exceeded 15 minute limit" true c
    else (c, [])
  | .ROASTING =>
    let c := { c with pid := pid_update now chamberTemp c.pid }
    let c := heater_set_pid_output (pid_get_output c.pid) c
    let c := heater_update now c
    (c, [])
  | .COOLING =>
    if chamberTemp < COOLING_TARGET_TEMP then
      state_handle_event now .COOL_COMPLETE 0 c
    else (c, [])
  | .MANUAL =>
    (heater_update now c, [])
  | _ => (c, [])

-- ============== Telemetry serialization (serial_comm.cpp) ==============

/-- The payload of one roasterState message, field for field as
serial_send_state serializes it. chamberTemp is an Option: none stands for
the JSON null the source emits when isnan holds of the filtered reading;
error is none for the JSON null outside the ERROR phase. -/
structure RoasterStatePayload where
  stateName : String
  stateId : ℕ
  chamberTemp : Option ℚ
  heaterTemp : ℚ
  setpoint : ℚ
  fanSpeed : ℕ
  heaterPower : ℕ
  heaterEnabled : Bool
  pidEnabled : Bool
  roastTimeMs : ℕ
  firstCrackMarked : Bool
  firstCrackTimeMs : Option ℕ
  ror : ℚ
  error : Option (String × String × Bool)
deriving Repr, DecidableEq

/-- serial_send_state: serialize the full state snapshot. It performs one
filtered thermocouple acquisition for chamberTemp (raw frames r1 r2 r3) and
calculate_ror performs a second one (raw frames s1 s2 s3); the thermistor
temperature arrives pre-converted. The filtered reading is a plain rational
and never NaN, so the isnan test of the source is always false and
chamberTemp always carries a value. -/
def serial_send_state (now r1 r2 r3 s1 s2 s3 : ℕ) (heaterTemp : ℚ) (c : Controller) :
    Controller × RoasterStatePayload × List Msg :=
  let (c, chamberTemp) := thermocouple_read_filtered r1 r2 r3 c
  let roastTime := state_get_roast_time_ms now c
  let (c, ror) := calculate_ror now s1 s2 s3 c
  let payload : RoasterStatePayload :=
    { stateName := state_get_name c.sm.current
      stateId := c.sm.current.id
      chamberTemp := some chamberTemp
      heaterTemp := heaterTemp
      setpoint := state_get_setpoint c
      fanSpeed := state_get_fan_speed c
      heaterPower := state_get_heater_power c
      heaterEnabled := heater_is_enabled c
      pidEnabled := state_is_pid_enabled c
      roastTimeMs := roastTime
      firstCrackMarked := state_is_first_crack_marked c
      firstCrackTimeMs :=
        if state_is_first_crack_marked c then some (state_get_first_crack_time_ms c) else none
      ror := ror
      error :=
        if c.sm.current = .ERROR then
          some (c.sm.errorCode, c.sm.errorMessage, c.sm.errorFatal)
        else none }
  (c, payload, [⟨"roasterState", "", ""⟩])

/-- serial_send_event: emit a roastEvent message; performs one filtered
thermocouple acquisition for the chamberTemp field. -/
def serial_send_event (r1 r2 r3 : ℕ) (c : Controller) : Controller × List Msg :=
  let (c, _) := thermocouple_read_filtered r1 r2 r3 c
  (c, [⟨"roastEvent", "", ""⟩])

-- ============== Boot state (setup in main.cpp) ==============

/-- The controller state after setup(): hardware_init, pid_init,
safety_init and state_init have run; all outputs are off, the defaults are
loaded, the filter is unseeded. The one raw (unfiltered) thermocouple test
read of setup only preloads the fault register, which every later
acquisition overwrites before use; it is modelled as leaving 0. -/
def initController : Controller :=
  { sm :=
      { current := .OFF
        setpoint := DEFAULT_ROAST_SETPOINT
        preheatTarget := DEFAULT_PREHEAT_TEMP
        roastStartTime := 0, preheatStartTime := 0
        firstCrackMarked := false, firstCrackTime := 0
        errorCode := "", errorMessage := "", errorFatal := false
        manualFanSpeed := 50, manualHeaterPower := 0, fanOnlySpeed := 50 }
    fan := { enabled := false, speed := 0, pwmWritten := 0, pwmPin := 0 }
    heater := { enabled := false, power := 0, pidOutput := 0, windowStart := 0, ssr := false }
    thermo := { fault := 0, filteredTemp := 0, filterInitialized := false }
    ror := { lastTemp := 0, lastTime := 0, value := 0 }
    pid := pidInit
    safety := { faultActive := false, faultCode := "", faultMessage := "", faultFatal := false }
    deb := { faultCount := 0, goodCount := 0, lastFault := 0, warningLogged := false } }

-- ============== Environment actions and reachability ==============

/-- One externally driven step of the firmware: an inbound command exactly
as parseCommand dispatches it (serial_comm.cpp), the DISCONNECTED timeout
event, one safety_update tick, one state_update tick, or one telemetry
emission. Raw thermocouple frames and millis values are chosen by the
environment. This action set over-approximates the fixed loop order, so
invariants proved over all action sequences hold of every real execution. -/
inductive Act
  | startPreheat (now : ℕ) (v : ℚ)
  | loadBeans (now : ℕ) (v : ℚ)
  | endRoast (now : ℕ)
  | markFirstCrack (now r1 r2 r3 : ℕ)
  | stopCmd (now : ℕ)
  | enterFanOnly (now : ℕ) (v : ℚ)
  | exitFanOnly (now : ℕ)
  | enterManual (now : ℕ)
  | exitManual (now : ℕ)
  | clearFault (now : ℕ)
  | setSetpoint (now : ℕ) (v : ℚ)
  | setFanSpeed (now : ℕ) (v : ℚ)
  | setHeaterPower (now : ℕ) (v : ℚ)
  | disconnected (now : ℕ)
  | debugFan
  | testFanPins
  | safetyTick (now r1 r2 r3 : ℕ)
  | updateTick (now r1 r2 r3 : ℕ)
  | sendState (now r1 r2 r3 s1 s2 s3 : ℕ) (heaterTemp : ℚ)
deriving Repr

/-- Apply one action to the controller (messages discarded). -/
def applyAct (a : Act) (c : Controller) : Controller :=
  match a with
  | .startPreheat now v => (state_handle_event now .START_PREHEAT v c).1
  | .loadBeans now v => (state_handle_event now .LOAD_BEANS v c).1
  | .endRoast now => (state_handle_event now .END_ROAST 0 c).1
  | .markFirstCrack now r1 r2 r3 =>
    (serial_send_event r1 r2 r3 (state_handle_event now .FIRST_CRACK 0 c).1).1
  | .stopCmd now => (state_handle_event now .STOP 0 c).1
  | .enterFanOnly now v => (state_handle_event now .START_FAN_ONLY v c).1
  | .exitFanOnly now => (state_handle_event now .EXIT_FAN_ONLY 0 c).1
  | .enterManual now => (state_handle_event now .ENTER_MANUAL 0 c).1
  | .exitManual now => (state_handle_event now .EXIT_MANUAL 0 c).1
  | .clearFault now => (state_handle_event now .CLEAR_FAULT 0 c).1
  | .setSetpoint now v => (state_handle_event now .SET_SETPOINT v c).1
  | .setFanSpeed now v => (state_handle_event now .SET_FAN_SPEED v c).1
  | .setHeaterPower now v => (state_handle_event now .SET_HEATER_POWER v c).1
  | .disconnected now => (state_handle_event now .DISCONNECTED 0 c).1
  | .debugFan => (fan_debug_dump c).1
  | .testFanPins => (fan_test_direct c).1
  | .safetyTick now r1 r2 r3 => (safety_update now r1 r2 r3 c).1
  | .updateTick now r1 r2 r3 => (state_update now r1 r2 r3 c).1
  | .sendState now r1 r2 r3 s1 s2 s3 h => (serial_send_state now r1 r2 r3 s1 s2 s3 h c).1

/-- Apply a list of actions in order, starting from the boot state when
composed with initController. -/
def applyActs (l : List Act) (c : Controller) : Controller :=
  l.foldl (fun c a => applyAct a c) c

-- ============== Arithmetic helper lemmas ==============

theorem arduino_map_le {x inMax outMax : ℕ} (h : x ≤ inMax) :
    arduino_map x inMax outMax ≤ outMax := by
  unfold arduino_map
  rcases Nat.eq_zero_or_pos inMax with h0 | h0
  · simp [h0]
  · calc x * outMax / inMax ≤ inMax * outMax / inMax :=
          Nat.div_le_div_right (Nat.mul_le_mul_right _ h)
      _ = outMax := by rw [Nat.mul_div_cancel_left _ h0]

theorem ctrunc_nonneg_le {v : ℚ} (h0 : 0 ≤ v) (h1 : v ≤ 255) : (ctrunc v).toNat ≤ 255 := by
  unfold ctrunc
  rw [if_pos h0]
  have : ⌊v⌋ ≤ 255 := by
    have := Int.floor_le_floor (α := ℚ) h1
    simpa using this
  omega

-- ============== Structural equation lemmas ==============

theorem exit_state_eq (old : RoasterState) (c : Controller) :
    exit_state old c =
      ({ c with sm := { c.sm with
            manualHeaterPower := if old = .MANUAL then 0 else c.sm.manualHeaterPower } },
       [mlog "debug" "STATE"]) := by
  cases old <;> simp [exit_state]

theorem enter_state_current (now : ℕ) (s : RoasterState) (c : Controller) :
    ((enter_state now s c).1).sm.current = s := by
  unfold enter_state
  split
  · simp_all
  · rw [exit_state_eq]
    cases s <;> simp [fan_disable, heater_disable, fan_enable, fan_set_speed,
      heater_enable, heater_set_power, reset_ror]
    <;> split <;> simp

theorem enter_state_safety (now : ℕ) (s : RoasterState) (c : Controller) :
    ((enter_state now s c).1).safety = c.safety := by
  unfold enter_state
  split
  · simp
  · rw [exit_state_eq]
    cases s <;> simp [fan_disable, heater_disable, fan_enable, fan_set_speed,
      heater_enable, heater_set_power, reset_ror]
    <;> split <;> simp

theorem enter_state_thermo (now : ℕ) (s : RoasterState) (c : Controller) :
    ((enter_state now s c).1).thermo = c.thermo := by
  unfold enter_state
  split
  · simp
  · rw [exit_state_eq]
    cases s <;> simp [fan_disable, heater_disable, fan_enable, fan_set_speed,
      heater_enable, heater_set_power, reset_ror]
    <;> split <;> simp

theorem enter_state_deb (now : ℕ) (s : RoasterState) (c : Controller) :
    ((enter_state now s c).1).deb = c.deb := by
  unfold enter_state
  split
  · simp
  · rw [exit_state_eq]
    cases s <;> simp [fan_disable, heater_disable, fan_enable, fan_set_speed,
      heater_enable, heater_set_power, reset_ror]
    <;> split <;> simp

theorem enter_state_setpoints (now : ℕ) (s : RoasterState) (c : Controller) :
    ((enter_state now s c).1).sm.setpoint = c.sm.setpoint ∧
    ((enter_state now s c).1).sm.preheatTarget = c.sm.preheatTarget := by
  unfold enter_state
  split
  · simp
  · rw [exit_state_eq]
    cases s <;> simp [fan_disable, heater_disable, fan_enable, fan_set_speed,
      heater_enable, heater_set_power, reset_ror]
    <;> split <;> simp

-- ============== Reachability invariant ==============

/-- Structural invariant of the controller, preserved by every action from
boot. It packages what the claims about reachable states need: where the
heater can be enabled, the fan guarantees of the heating phases, that a
disabled fan or heater drives its output pins to zero, the percentage
ranges, positivity of the setpoints, and that the ERROR phase coincides
with a latched fault. -/
def BaseInv (c : Controller) : Prop :=
  (c.heater.enabled = true →
     c.sm.current = .PREHEAT ∨ c.sm.current = .ROASTING ∨ c.sm.current = .MANUAL) ∧
  (c.sm.current = .PREHEAT ∨ c.sm.current = .ROASTING →
     c.fan.enabled = true ∧ FAN_ROAST_MIN_DUTY ≤ c.fan.speed) ∧
  (c.sm.current = .ERROR → c.fan.enabled = false) ∧
  (c.sm.current = .OFF → c.fan.enabled = false) ∧
  (c.fan.enabled = false → c.fan.pwmWritten = 0 ∧ c.fan.pwmPin = 0) ∧
  (c.heater.enabled = false → c.heater.ssr = false) ∧
  c.fan.speed ≤ 100 ∧
  c.heater.power ≤ 100 ∧
  c.sm.manualFanSpeed ≤ 100 ∧
  c.sm.manualHeaterPower ≤ 100 ∧
  c.sm.fanOnlySpeed ≤ 100 ∧
  0 < c.sm.setpoint ∧
  0 < c.sm.preheatTarget

/-- Full invariant: the structural part plus the ERROR-fault coincidence. -/
def CtrlInv (c : Controller) : Prop :=
  BaseInv c ∧ (c.sm.current = .ERROR ↔ c.safety.faultActive = true)

theorem ctrlInv_init : CtrlInv initController := by
  unfold CtrlInv BaseInv initController
  norm_num [FAN_ROAST_MIN_DUTY, DEFAULT_ROAST_SETPOINT, DEFAULT_PREHEAT_TEMP]
  all_goals decide

theorem base_enter_state (now : ℕ) (s : RoasterState) (c : Controller) (h : BaseInv c) :
    BaseInv ((enter_state now s c).1) := by
  obtain ⟨h1, h2, h3, h4, h5, h6, h7, h8, h9, h10, h11, h12, h13⟩ := h
  unfold enter_state
  split
  · exact ⟨h1, h2, h3, h4, h5, h6, h7, h8, h9, h10, h11, h12, h13⟩
  · rw [exit_state_eq]
    cases s <;>
      simp only [BaseInv, fan_disable, heater_disable, fan_enable, fan_set_speed,
        heater_enable, heater_set_power, reset_ror, FAN_PREHEAT_DUTY, FAN_ROAST_DEFAULT,
        FAN_COOLING_DUTY, FAN_ROAST_MIN_DUTY] <;>
      split_ifs <;>
      simp_all

theorem ctrlInv_enter_ok (now : ℕ) (s : RoasterState) (c : Controller) (h : CtrlInv c)
    (hs : s ≠ .ERROR) (hcur : c.sm.current ≠ .ERROR) : CtrlInv ((enter_state now s c).1) := by
  refine ⟨base_enter_state now s c h.1, ?_⟩
  rw [enter_state_current, enter_state_safety]
  have : c.safety.faultActive ≠ true := fun ha => hcur (h.2.mpr ha)
  simp [hs, this]

theorem trigger_fresh (now : ℕ) (code msg : String) (ft : Bool) (c : Controller)
    (h : c.safety.faultActive = false) :
    ((safety_trigger_fault now code msg ft c).1).sm.current = .ERROR ∧
    ((safety_trigger_fault now code msg ft c).1).safety =
      ⟨true, code, msg, ft⟩ := by
  unfold safety_trigger_fault state_enter_error
  rw [if_neg (by simp [h])]
  constructor
  · rw [enter_state_current]
  · rw [enter_state_safety]

theorem trigger_inv (now : ℕ) (code msg : String) (ft : Bool) (c : Controller)
    (h : CtrlInv c) : CtrlInv ((safety_trigger_fault now code msg ft c).1) := by
  unfold safety_trigger_fault state_enter_error
  split
  · exact h
  · refine ⟨?_, ?_⟩
    · apply base_enter_state
      obtain ⟨⟨h1, h2, h3, h4, h5, h6, h7, h8, h9, h10, h11, h12, h13⟩, _⟩ := h
      exact ⟨h1, h2, h3, h4, h5, h6, h7, h8, h9, h10, h11, h12, h13⟩
    · rw [enter_state_current, enter_state_safety]
      simp

theorem thermocouple_read_fst (r1 r2 r3 : ℕ) (c : Controller) :
    ∃ f, (thermocouple_read r1 r2 r3 c).1 =
      { c with thermo := { c.thermo with fault := f } } := by
  refine ⟨if tc_select r1 r2 r3 &&& 0x10000 ≠ 0 then tc_select r1 r2 r3 &&& 7 else 0, ?_⟩
  unfold thermocouple_read
  dsimp only
  split <;> simp_all

theorem read_filtered_fst (r1 r2 r3 : ℕ) (c : Controller) :
    ∃ t, ((thermocouple_read_filtered r1 r2 r3 c).1) = { c with thermo := t } := by
  obtain ⟨f, hf⟩ := thermocouple_read_fst r1 r2 r3 c
  unfold thermocouple_read_filtered
  rcases h : thermocouple_read r1 r2 r3 c with ⟨c1, raw⟩
  rw [h] at hf
  simp only [h]
  dsimp only at hf
  subst hf
  cases raw with
  | none => exact ⟨_, rfl⟩
  | some v =>
    dsimp only
    split
    · exact ⟨_, rfl⟩
    · exact ⟨_, rfl⟩

theorem ctrlInv_set_thermo (c : Controller) (t : ThermoState) (h : CtrlInv c) :
    CtrlInv { c with thermo := t } := by
  obtain ⟨⟨h1, h2, h3, h4, h5, h6, h7, h8, h9, h10, h11, h12, h13⟩, hE⟩ := h
  exact ⟨⟨h1, h2, h3, h4, h5, h6, h7, h8, h9, h10, h11, h12, h13⟩, hE⟩

theorem read_filtered_inv (r1 r2 r3 : ℕ) (c : Controller) (h : CtrlInv c) :
    CtrlInv ((thermocouple_read_filtered r1 r2 r3 c).1) := by
  obtain ⟨t, ht⟩ := read_filtered_fst r1 r2 r3 c
  rw [ht]; exact ctrlInv_set_thermo c t h

theorem chamber_check_inv (now : ℕ) (temp : ℚ) (c : Controller) (h : CtrlInv c) :
    CtrlInv ((safety_check_chamber_temp now temp c).1) := by
  unfold safety_check_chamber_temp
  split
  · exact trigger_inv _ _ _ _ _ h
  · split <;> exact h

theorem fan_check_inv (now : ℕ) (fp : ℕ) (ho : Bool) (c : Controller) (h : CtrlInv c) :
    CtrlInv ((safety_check_fan_for_heater now fp ho c).1) := by
  unfold safety_check_fan_for_heater
  split
  · exact h
  · split
    · exact trigger_inv _ _ _ _ _ h
    · exact h

theorem ctrlInv_set_deb (c : Controller) (d : DebounceState) (h : CtrlInv c) :
    CtrlInv { c with deb := d } := by
  obtain ⟨⟨h1, h2, h3, h4, h5, h6, h7, h8, h9, h10, h11, h12, h13⟩, hE⟩ := h
  exact ⟨⟨h1, h2, h3, h4, h5, h6, h7, h8, h9, h10, h11, h12, h13⟩, hE⟩

theorem thermo_check_inv (now : ℕ) (c : Controller) (h : CtrlInv c) :
    CtrlInv ((safety_check_thermocouple now c).1) := by
  unfold safety_check_thermocouple
  dsimp only
  split_ifs <;>
    first
      | exact h
      | exact ctrlInv_set_deb c _ h
      | exact ctrlInv_set_deb c _ (ctrlInv_set_deb c _ h)
      | exact trigger_inv _ _ _ _ _ (ctrlInv_set_deb c _ h)

theorem u8OfRat_le_100 {v : ℚ} (h0 : 0 < v) (h1 : v ≤ 100) : u8OfRat v ≤ 100 := by
  unfold u8OfRat ctrunc
  rw [if_pos (le_of_lt h0)]
  have hf0 : (0 : ℤ) ≤ ⌊v⌋ := Int.floor_nonneg.mpr (le_of_lt h0)
  have hf1 : ⌊v⌋ ≤ 100 := by
    have := Int.floor_le_floor (α := ℚ) h1
    simpa using this
  rw [Int.emod_eq_of_lt hf0 (by omega)]
  omega

theorem ctrlInv_set_pid (c : Controller) (p : PidState) (h : CtrlInv c) :
    CtrlInv { c with pid := p } := by
  obtain ⟨⟨h1, h2, h3, h4, h5, h6, h7, h8, h9, h10, h11, h12, h13⟩, hE⟩ := h
  exact ⟨⟨h1, h2, h3, h4, h5, h6, h7, h8, h9, h10, h11, h12, h13⟩, hE⟩

theorem ctrlInv_set_ror (c : Controller) (r : RorState) (h : CtrlInv c) :
    CtrlInv { c with ror := r } := by
  obtain ⟨⟨h1, h2, h3, h4, h5, h6, h7, h8, h9, h10, h11, h12, h13⟩, hE⟩ := h
  exact ⟨⟨h1, h2, h3, h4, h5, h6, h7, h8, h9, h10, h11, h12, h13⟩, hE⟩

theorem heater_set_pid_output_inv (x : ℚ) (c : Controller) (h : CtrlInv c) :
    CtrlInv (heater_set_pid_output x c) := by
  obtain ⟨⟨h1, h2, h3, h4, h5, h6, h7, h8, h9, h10, h11, h12, h13⟩, hE⟩ := h
  unfold heater_set_pid_output
  refine ⟨⟨h1, h2, h3, h4, h5, h6, h7, ?_, h9, h10, h11, h12, h13⟩, hE⟩
  dsimp only
  apply arduino_map_le
  apply ctrunc_nonneg_le
  · split_ifs <;> first | rfl | linarith
  · split_ifs <;> first | rfl | linarith

theorem heater_update_inv (now : ℕ) (c : Controller) (h : CtrlInv c) :
    CtrlInv (heater_update now c) := by
  obtain ⟨⟨h1, h2, h3, h4, h5, h6, h7, h8, h9, h10, h11, h12, h13⟩, hE⟩ := h
  unfold heater_update
  split
  · exact ⟨⟨h1, h2, h3, h4, h5, fun _ => rfl, h7, h8, h9, h10, h11, h12, h13⟩, hE⟩
  · dsimp only
    split <;>
      exact ⟨⟨h1, h2, h3, h4, h5, by simp_all, h7, h8, h9, h10, h11, h12, h13⟩, hE⟩

theorem safety_update_inv (now r1 r2 r3 : ℕ) (c : Controller) (h : CtrlInv c) :
    CtrlInv ((safety_update now r1 r2 r3 c).1) := by
  unfold safety_update
  split
  · exact h
  · rcases hR : thermocouple_read_filtered r1 r2 r3 c with ⟨c1, t1⟩
    have h1 : CtrlInv c1 := by
      have := read_filtered_inv r1 r2 r3 c h; rw [hR] at this; exact this
    simp only [hR]
    try dsimp only
    rcases hC : safety_check_chamber_temp now t1 c1 with ⟨c2, ok2, ms2⟩
    have h2 : CtrlInv c2 := by
      have := chamber_check_inv now t1 c1 h1; rw [hC] at this; exact this
    simp only [hC]
    try dsimp only
    split
    · exact h2
    · rcases hF : safety_check_fan_for_heater now (fan_get_speed c2) (heater_is_enabled c2) c2
        with ⟨c3, ok3, ms3⟩
      have h3 : CtrlInv c3 := by
        have := fan_check_inv now (fan_get_speed c2) (heater_is_enabled c2) c2 h2
        rw [hF] at this; exact this
      simp only [hF]
      try dsimp only
      split
      · exact h3
      · rcases hT : safety_check_thermocouple now c3 with ⟨c4, ok4, ms4⟩
        have h4 : CtrlInv c4 := by
          have := thermo_check_inv now c3 h3; rw [hT] at this; exact this
        simp only [hT]
        try dsimp only
        split
        · exact h4
        · exact h4

theorem fan_set_speed_inv (p : ℕ) (c : Controller) (h : CtrlInv c)
    (hp : c.sm.current = .PREHEAT ∨ c.sm.current = .ROASTING → FAN_ROAST_MIN_DUTY ≤ p) :
    CtrlInv ((fan_set_speed p c).1) := by
  obtain ⟨⟨h1, h2, h3, h4, h5, h6, h7, h8, h9, h10, h11, h12, h13⟩, hE⟩ := h
  unfold fan_set_speed
  dsimp only
  split_ifs with hclamp hen hen <;>
    refine ⟨⟨h1, ?_, h3, h4, ?_, h6, ?_, h8, h9, h10, h11, h12, h13⟩, hE⟩ <;>
    simp_all [FAN_ROAST_MIN_DUTY]

theorem heater_set_power_inv (p : ℕ) (c : Controller) (h : CtrlInv c) :
    CtrlInv ((heater_set_power p c).1) := by
  obtain ⟨⟨h1, h2, h3, h4, h5, h6, h7, h8, h9, h10, h11, h12, h13⟩, hE⟩ := h
  unfold heater_set_power
  dsimp only
  refine ⟨⟨h1, h2, h3, h4, h5, h6, h7, ?_, h9, h10, h11, h12, h13⟩, hE⟩
  dsimp only
  split <;> omega

theorem ctrlInv_enter_off_clear (now : ℕ) (c : Controller) (hB : BaseInv c)
    (hA : c.safety.faultActive = false) : CtrlInv ((enter_state now .OFF c).1) := by
  refine ⟨base_enter_state now .OFF c hB, ?_⟩
  rw [enter_state_current, enter_state_safety]
  simp [hA]

theorem handle_event_inv (now : ℕ) (e : RoasterEvent) (v : ℚ) (c : Controller) (h : CtrlInv c) :
    CtrlInv ((state_handle_event now e v c).1) := by
  obtain ⟨⟨h1, h2, h3, h4, h5, h6, h7, h8, h9, h10, h11, h12, h13⟩, hE⟩ := id h
  unfold state_handle_event
  cases e <;> dsimp only
  case NONE => exact h
  case FAULT => exact h
  case STOP =>
    split
    · next hc => exact ctrlInv_enter_ok now _ c h (by decide) hc.2
    · exact h
  case START_FAN_ONLY =>
    split
    · next hc =>
      split
      · next hv =>
        refine ctrlInv_enter_ok now _ _ ?_ (by decide) (by simp [hc])
        exact ⟨⟨h1, h2, h3, h4, h5, h6, h7, h8, h9, h10,
                u8OfRat_le_100 hv.1 hv.2, h12, h13⟩, hE⟩
      · exact ctrlInv_enter_ok now _ c h (by decide) (by simp [hc])
    · exact h
  case EXIT_FAN_ONLY =>
    split
    · next hc => exact ctrlInv_enter_ok now _ c h (by decide) (by simp [hc])
    · exact h
  case START_PREHEAT =>
    split
    · next hc =>
      have hcur : c.sm.current ≠ .ERROR := by rcases hc with hc | hc <;> simp [hc]
      split
      · next hv =>
        refine ctrlInv_enter_ok now _ _ ?_ (by decide) hcur
        exact ⟨⟨h1, h2, h3, h4, h5, h6, h7, h8, h9, h10, h11, h12, hv⟩, hE⟩
      · exact ctrlInv_enter_ok now _ c h (by decide) hcur
    · exact h
  case LOAD_BEANS =>
    split
    · next hc =>
      split
      · next hv =>
        refine ctrlInv_enter_ok now _ _ ?_ (by decide) (by simp [hc])
        exact ⟨⟨h1, h2, h3, h4, h5, h6, h7, h8, h9, h10, h11, hv, h13⟩, hE⟩
      · exact ctrlInv_enter_ok now _ c h (by decide) (by simp [hc])
    · exact h
  case END_ROAST =>
    split
    · next hc => exact ctrlInv_enter_ok now _ c h (by decide) (by simp [hc])
    · exact h
  case FIRST_CRACK =>
    split
    · next hc =>
      exact ⟨⟨h1, h2, h3, h4, h5, h6, h7, h8, h9, h10, h11, h12, h13⟩, hE⟩
    · exact h
  case COOL_COMPLETE =>
    split
    · next hc => exact ctrlInv_enter_ok now _ c h (by decide) (by simp [hc])
    · exact h
  case ENTER_MANUAL =>
    split
    · next hc => exact ctrlInv_enter_ok now _ c h (by decide) (by simp [hc])
    · exact h
  case EXIT_MANUAL =>
    split
    · next hc => exact ctrlInv_enter_ok now _ c h (by decide) (by simp [hc])
    · exact h
  case CLEAR_FAULT =>
    split
    · next hc =>
      exact ctrlInv_enter_off_clear now _
        ⟨h1, h2, h3, h4, h5, h6, h7, h8, h9, h10, h11, h12, h13⟩ rfl
    · exact h
  case SET_SETPOINT =>
    split
    · next hv =>
      split
      · exact ⟨⟨h1, h2, h3, h4, h5, h6, h7, h8, h9, h10, h11, hv.2, hv.2⟩, hE⟩
      · split
        · exact ⟨⟨h1, h2, h3, h4, h5, h6, h7, h8, h9, h10, h11, hv.2, h13⟩, hE⟩
        · exact ⟨⟨h1, h2, h3, h4, h5, h6, h7, h8, h9, h10, h11, hv.2, h13⟩, hE⟩
    · exact h
  case SET_FAN_SPEED =>
    split
    · next hFA =>
      have hs : (if u8OfRat v > 100 then 100 else u8OfRat v) ≤ 100 := by split <;> omega
      split
      · next hM =>
        exact fan_set_speed_inv _ _
          ⟨⟨h1, h2, h3, h4, h5, h6, h7, h8, hs, h10, h11, h12, h13⟩, hE⟩
          (by simp [hM])
      · split
        · next hF =>
          exact fan_set_speed_inv _ _
            ⟨⟨h1, h2, h3, h4, h5, h6, h7, h8, h9, h10, hs, h12, h13⟩, hE⟩
            (by simp [hF])
        · split
          · next hPR =>
            refine fan_set_speed_inv _ _ h ?_
            intro _
            simp only [FAN_ROAST_MIN_DUTY]
            split_ifs <;> omega
          · exact h
    · exact h
  case SET_HEATER_POWER =>
    split
    · next hc =>
      have hs : (if u8OfRat v > 100 then 100 else u8OfRat v) ≤ 100 := by split <;> omega
      exact heater_set_power_inv _ _
        ⟨⟨h1, h2, h3, h4, h5, h6, h7, h8, h9, hs, h11, h12, h13⟩, hE⟩
    · exact h
  case DISCONNECTED =>
    split
    · next hc =>
      exact ctrlInv_enter_ok now _ c h (by decide) (by rcases hc with hc | hc <;> simp [hc])
    · split
      · next hc2 =>
        exact ctrlInv_enter_ok now _ c h (by decide) (by rcases hc2 with hc | hc <;> simp [hc])
      · exact h

theorem state_update_inv (now r1 r2 r3 : ℕ) (c : Controller) (h : CtrlInv c) :
    CtrlInv ((state_update now r1 r2 r3 c).1) := by
  unfold state_update
  rcases hR : thermocouple_read_filtered r1 r2 r3 c with ⟨c1, t1⟩
  have h1 : CtrlInv c1 := by
    have := read_filtered_inv r1 r2 r3 c h; rw [hR] at this; exact this
  simp only [hR]
  split
  · split
    · exact trigger_inv _ _ _ _ _
        (heater_update_inv _ _ (heater_set_pid_output_inv _ _ (ctrlInv_set_pid _ _ h1)))
    · exact heater_update_inv _ _ (heater_set_pid_output_inv _ _ (ctrlInv_set_pid _ _ h1))
  · exact heater_update_inv _ _ (heater_set_pid_output_inv _ _ (ctrlInv_set_pid _ _ h1))
  · split
    · exact handle_event_inv _ _ _ _ h1
    · exact h1
  · exact heater_update_inv _ _ h1
  · exact h1

theorem send_event_inv (r1 r2 r3 : ℕ) (c : Controller) (h : CtrlInv c) :
    CtrlInv ((serial_send_event r1 r2 r3 c).1) := by
  unfold serial_send_event
  rcases hR : thermocouple_read_filtered r1 r2 r3 c with ⟨c1, t1⟩
  have h1 : CtrlInv c1 := by
    have := read_filtered_inv r1 r2 r3 c h; rw [hR] at this; exact this
  simp only [hR]
  exact h1

theorem calc_ror_inv (now s1 s2 s3 : ℕ) (c : Controller) (h : CtrlInv c) :
    CtrlInv ((calculate_ror now s1 s2 s3 c).1) := by
  unfold calculate_ror
  rcases hR : thermocouple_read_filtered s1 s2 s3 c with ⟨c1, t1⟩
  have h1 : CtrlInv c1 := by
    have := read_filtered_inv s1 s2 s3 c h; rw [hR] at this; exact this
  simp only [hR]
  try dsimp only
  split
  · exact ctrlInv_set_ror _ _ h1
  · split
    · exact ctrlInv_set_ror _ _ h1
    · exact h1

theorem send_state_inv (now r1 r2 r3 s1 s2 s3 : ℕ) (ht : ℚ) (c : Controller) (h : CtrlInv c) :
    CtrlInv ((serial_send_state now r1 r2 r3 s1 s2 s3 ht c).1) := by
  unfold serial_send_state
  rcases hR : thermocouple_read_filtered r1 r2 r3 c with ⟨c1, t1⟩
  have h1 : CtrlInv c1 := by
    have := read_filtered_inv r1 r2 r3 c h; rw [hR] at this; exact this
  simp only [hR]
  rcases hC : calculate_ror now s1 s2 s3 c1 with ⟨c2, rr⟩
  have h2 : CtrlInv c2 := by
    have := calc_ror_inv now s1 s2 s3 c1 h1; rw [hC] at this; exact this
  simp only [hC]
  exact h2

theorem debug_dump_inv (c : Controller) (h : CtrlInv c) : CtrlInv ((fan_debug_dump c).1) := by
  obtain ⟨⟨h1, h2, h3, h4, h5, h6, h7, h8, h9, h10, h11, h12, h13⟩, hE⟩ := h
  unfold fan_debug_dump
  split
  · next hEn =>
    exact ⟨⟨h1, h2, h3, h4, by simp_all, h6, h7, h8, h9, h10, h11, h12, h13⟩, hE⟩
  · next hEn =>
    refine ⟨⟨h1, h2, h3, h4, ?_, h6, h7, h8, h9, h10, h11, h12, h13⟩, hE⟩
    intro hne
    exact ⟨(h5 (by simp_all)).1, rfl⟩

theorem test_direct_inv (c : Controller) (h : CtrlInv c) : CtrlInv ((fan_test_direct c).1) := by
  obtain ⟨⟨h1, h2, h3, h4, h5, h6, h7, h8, h9, h10, h11, h12, h13⟩, hE⟩ := h
  unfold fan_test_direct
  refine ⟨⟨h1, h2, h3, h4, ?_, h6, h7, h8, h9, h10, h11, h12, h13⟩, hE⟩
  intro hne
  exact ⟨(h5 hne).1, rfl⟩

theorem applyAct_inv (a : Act) (c : Controller) (h : CtrlInv c) : CtrlInv (applyAct a c) := by
  cases a <;> dsimp only [applyAct] <;>
    first
      | exact handle_event_inv _ _ _ _ h
      | exact safety_update_inv _ _ _ _ _ h
      | exact state_update_inv _ _ _ _ _ h
      | exact send_event_inv _ _ _ _ (handle_event_inv _ _ _ _ h)
      | exact send_state_inv _ _ _ _ _ _ _ _ _ h
      | exact debug_dump_inv _ h
      | exact test_direct_inv _ h

/-- Every state reachable from boot by any sequence of environment actions
satisfies the controller invariant. -/
theorem reachable_inv (l : List Act) : CtrlInv (applyActs l initController) := by
  have step : ∀ c, CtrlInv c → CtrlInv (applyActs l c) := by
    induction l with
    | nil => intro c h; exact h
    | cons a l ih => intro c h; exact ih _ (applyAct_inv a c h)
  exact step _ ctrlInv_init

theorem calc_ror_shape (now s1 s2 s3 : ℕ) (c : Controller) :
    ∃ t r, (calculate_ror now s1 s2 s3 c).1 = { c with thermo := t, ror := r } := by
  unfold calculate_ror
  obtain ⟨t0, ht0⟩ := read_filtered_fst s1 s2 s3 c
  rcases hR : thermocouple_read_filtered s1 s2 s3 c with ⟨c1, t1⟩
  rw [hR] at ht0
  simp only [hR]
  dsimp only at ht0
  subst ht0
  try dsimp only
  split
  · exact ⟨_, _, rfl⟩
  · split
    · exact ⟨_, _, rfl⟩
    · exact ⟨_, _, rfl⟩

theorem send_state_shape (now r1 r2 r3 s1 s2 s3 : ℕ) (ht : ℚ) (c : Controller) :
    ∃ t r, (serial_send_state now r1 r2 r3 s1 s2 s3 ht c).1 = { c with thermo := t, ror := r } := by
  unfold serial_send_state
  obtain ⟨t0, ht0⟩ := read_filtered_fst r1 r2 r3 c
  rcases hR : thermocouple_read_filtered r1 r2 r3 c with ⟨c1, t1⟩
  rw [hR] at ht0
  simp only [hR]
  dsimp only at ht0
  subst ht0
  obtain ⟨t2, r2x, ht2⟩ := calc_ror_shape now s1 s2 s3 _
  rcases hC : calculate_ror now s1 s2 s3 _ with ⟨c2, rr⟩
  rw [hC] at ht2
  simp only [hC]
  dsimp only at ht2
  subst ht2
  exact ⟨_, _, rfl⟩

theorem send_event_shape (r1 r2 r3 : ℕ) (c : Controller) :
    ∃ t, (serial_send_event r1 r2 r3 c).1 = { c with thermo := t } := by
  unfold serial_send_event
  obtain ⟨t0, ht0⟩ := read_filtered_fst r1 r2 r3 c
  rcases hR : thermocouple_read_filtered r1 r2 r3 c with ⟨c1, t1⟩
  rw [hR] at ht0
  simp only [hR]
  dsimp only at ht0
  subst ht0
  exact ⟨_, rfl⟩

/-- While in ERROR, every action leaves the phase in ERROR or (only through
CLEAR_FAULT or a COOL_COMPLETE that cannot fire) moves it to OFF. -/
theorem error_phase_step (a : Act) (c : Controller) (h : CtrlInv c)
    (hc : c.sm.current = .ERROR) :
    (applyAct a c).sm.current = .ERROR ∨ (applyAct a c).sm.current = .OFF := by
  have hA : c.safety.faultActive = true := h.2.mp hc
  cases a <;> dsimp only [applyAct]
  case clearFault =>
    right
    unfold state_handle_event
    dsimp only
    rw [if_pos hc]
    rw [enter_state_current]
  case markFirstCrack now r1 r2 r3 =>
    left
    obtain ⟨t, hsh⟩ := send_event_shape r1 r2 r3 ((state_handle_event now .FIRST_CRACK 0 c).1)
    rw [hsh]
    show (state_handle_event now .FIRST_CRACK 0 c).1.sm.current = .ERROR
    unfold state_handle_event
    dsimp only
    rw [if_neg (by simp [hc])]
    exact hc
  case safetyTick now r1 r2 r3 =>
    left
    unfold safety_update
    rw [if_pos (by simp [hA])]
    exact hc
  case updateTick now r1 r2 r3 =>
    left
    unfold state_update
    obtain ⟨t0, ht0⟩ := read_filtered_fst r1 r2 r3 c
    rcases hR : thermocouple_read_filtered r1 r2 r3 c with ⟨c1, t1⟩
    rw [hR] at ht0
    simp only [hR]
    dsimp only at ht0
    subst ht0
    simp [hc]
  case sendState now r1 r2 r3 s1 s2 s3 ht =>
    left
    obtain ⟨t, r, hsh⟩ := send_state_shape now r1 r2 r3 s1 s2 s3 ht c
    rw [hsh]
    exact hc
  case debugFan =>
    left
    unfold fan_debug_dump
    split <;> exact hc
  case testFanPins =>
    left
    unfold fan_test_direct
    exact hc
  all_goals (
    left
    unfold state_handle_event
    dsimp only
    first
      | (rw [if_neg (by simp [hc, state_allows_setpoint_change, state_allows_fan_change,
              state_allows_heater_change])]
         exact hc)
      | (rw [if_neg (by simp [hc]), if_neg (by simp [hc])]
         exact hc)
      | exact hc)

theorem ctrlInv_actuators_off (c : Controller) (h : CtrlInv c)
    (hc : c.sm.current = .ERROR ∨ c.sm.current = .OFF) :
    c.heater.enabled = false ∧ c.fan.enabled = false := by
  obtain ⟨⟨h1, h2, h3, h4, _⟩, _⟩ := h
  constructor
  · cases hh : c.heater.enabled
    · rfl
    · rcases h1 hh with hx | hx | hx <;> rcases hc with hcc | hcc <;> simp_all
  · rcases hc with hcc | hcc
    · exact h3 hcc
    · exact h4 hcc

-- ============== Debouncer cycle model (for the thermocouple claims) ==============

/-- A MAX31855 frame with the fault flag (bit 16) set and fault bits m:
what the amplifier returns while the thermocouple is faulted with mask m. -/
def tc_fault_frame (m : ℕ) : ℕ := 0x10000 ||| m

/-- One thermocouple acquisition observing fault mask m followed by the
debounced check, the two steps a safety tick performs on the fault path. -/
def fault_read_check (now m : ℕ) (c : Controller) : Controller :=
  (safety_check_thermocouple now
    (thermocouple_read (tc_fault_frame m) (tc_fault_frame m) 0 c).1).1

/-- One clean acquisition (a frame with the fault flag clear) followed by
the debounced check. -/
def clean_read_check (now raw : ℕ) (c : Controller) : Controller :=
  (safety_check_thermocouple now (thermocouple_read raw raw 0 c).1).1

/-- Iterate a read-and-check cycle n times. -/
def read_check_cycles (f : Controller → Controller) : ℕ → Controller → Controller
  | 0, c => c
  | n + 1, c => read_check_cycles f n (f c)

/-- The cleared debouncer (the state after safety_init or after three clean
reads). -/
def debInit : DebounceState := ⟨0, 0, 0, false⟩

/-- The criticality cascade of safety_check_thermocouple: open circuit is
critical, short to GND is a warning, short to VCC and unknown masks are
critical. -/
def criticalMask (m : ℕ) : Bool :=
  if m &&& 0x01 ≠ 0 then true else if m &&& 0x02 ≠ 0 then false else true

-- ============== PID operation sequences (for the output-bound claim) ==============

/-- One call to the public PID interface: update with a measured
temperature at a time, enable, disable, reset, or set_setpoint. -/
inductive PidOp
  | update (now : ℕ) (temp : ℚ)
  | enable
  | disable
  | reset
  | setSp (v : ℚ)
deriving Repr

def applyPidOp : PidOp → PidState → PidState
  | .update now t, p => pid_update now t p
  | .enable, p => pid_enable p
  | .disable, p => pid_disable p
  | .reset, p => pid_reset p
  | .setSp v, p => pid_set_setpoint v p

def applyPidOps (l : List PidOp) (p : PidState) : PidState :=
  l.foldl (fun p o => applyPidOp o p) p

theorem pid_output_bounds_step (o : PidOp) (p : PidState)
    (h : 0 ≤ p.output ∧ p.output ≤ 255) :
    0 ≤ (applyPidOp o p).output ∧ (applyPidOp o p).output ≤ 255 := by
  cases o <;> dsimp only [applyPidOp]
  case enable => exact h
  case disable => exact ⟨le_refl 0, by norm_num [pid_disable]⟩
  case reset => exact ⟨le_refl 0, by norm_num [pid_reset]⟩
  case setSp v => exact h
  case update now t =>
    obtain ⟨hlo, hhi⟩ := h
    unfold pid_update
    split
    · norm_num
    · split
      · exact ⟨hlo, hhi⟩
      · dsimp only
        constructor <;>
          (simp only [PID_OUTPUT_MIN, PID_OUTPUT_MAX]
           split_ifs <;> linarith)

theorem thermocouple_read_fault_eq (r : ℕ) (c : Controller) (hb : r &&& 0x10000 ≠ 0) :
    thermocouple_read r r 0 c =
      ({ c with thermo := { c.thermo with fault := r &&& 0x07 } }, none) := by
  unfold thermocouple_read
  simp [tc_select, hb]

theorem frc_zero (now : ℕ) (c : Controller) :
    (fault_read_check now 0 c).safety = c.safety ∧
    (fault_read_check now 0 c).sm = c.sm := by
  have hz : tc_fault_frame 0 &&& 0x07 = 0 := by decide
  unfold fault_read_check
  rw [thermocouple_read_fault_eq _ _ (by decide), hz]
  unfold safety_check_thermocouple thermocouple_get_fault
  try dsimp only
  rw [if_pos rfl]
  try dsimp only
  split_ifs <;> exact ⟨rfl, rfl⟩

theorem frc_first (now m : ℕ) (c : Controller)
    (hb1 : tc_fault_frame m &&& 0x10000 ≠ 0) (hb2 : tc_fault_frame m &&& 0x07 = m)
    (hm0 : m ≠ 0) (hlast : c.deb.lastFault ≠ m) :
    fault_read_check now m c =
      { c with thermo := { c.thermo with fault := m },
               deb := ⟨1, 0, m, false⟩ } := by
  unfold fault_read_check
  rw [thermocouple_read_fault_eq _ _ hb1, hb2]
  unfold safety_check_thermocouple thermocouple_get_fault
  try dsimp only
  rw [if_neg hm0]
  try dsimp only
  rw [if_neg (show ¬(m = c.deb.lastFault) from fun h => hlast h.symm)]
  try dsimp only
  rw [if_pos (by norm_num)]

theorem frc_count (now m : ℕ) (c : Controller)
    (hb1 : tc_fault_frame m &&& 0x10000 ≠ 0) (hb2 : tc_fault_frame m &&& 0x07 = m)
    (hm0 : m ≠ 0) (hlast : c.deb.lastFault = m) (hcnt : c.deb.faultCount + 1 < 10) :
    fault_read_check now m c =
      { c with thermo := { c.thermo with fault := m },
               deb := ⟨c.deb.faultCount + 1, 0, m, c.deb.warningLogged⟩ } := by
  unfold fault_read_check
  rw [thermocouple_read_fault_eq _ _ hb1, hb2]
  unfold safety_check_thermocouple thermocouple_get_fault
  try dsimp only
  rw [if_neg hm0]
  try dsimp only
  rw [if_pos (show m = c.deb.lastFault from hlast.symm)]
  try dsimp only
  rw [Nat.mod_eq_of_lt (by omega)]
  rw [if_pos (by omega)]
  rw [hlast]

theorem frc_latch (now m : ℕ) (c : Controller)
    (hb1 : tc_fault_frame m &&& 0x10000 ≠ 0) (hb2 : tc_fault_frame m &&& 0x07 = m)
    (hm0 : m ≠ 0) (hlast : c.deb.lastFault = m) (hcnt : c.deb.faultCount = 9)
    (hcrit : criticalMask m = true) (hheat : c.heater.enabled = true)
    (hact : c.safety.faultActive = false) :
    (fault_read_check now m c).safety.faultActive = true ∧
    (fault_read_check now m c).safety.faultCode = "THERMOCOUPLE_FAULT" ∧
    (fault_read_check now m c).sm.current = .ERROR := by
  unfold criticalMask at hcrit
  unfold fault_read_check
  rw [thermocouple_read_fault_eq _ _ hb1, hb2]
  unfold safety_check_thermocouple thermocouple_get_fault heater_is_enabled
  try dsimp only
  rw [if_neg hm0]
  try dsimp only
  rw [if_pos (show m = c.deb.lastFault from hlast.symm)]
  try dsimp only
  rw [hcnt]
  rw [Nat.mod_eq_of_lt (by omega)]
  rw [if_neg (by norm_num)]
  rw [if_pos (show (if m &&& 0x01 ≠ 0 then true
      else if m &&& 0x02 ≠ 0 then false else true) = true ∧ c.heater.enabled = true
      from ⟨hcrit, hheat⟩)]
  unfold safety_trigger_fault state_enter_error
  rw [if_neg (by simp [hact])]
  try dsimp only
  refine ⟨?_, ?_, ?_⟩
  · rw [enter_state_safety]
  · rw [enter_state_safety]
  · rw [enter_state_current]

theorem thermocouple_read_clean_eq (r : ℕ) (c : Controller) (hb : r &&& 0x10000 = 0) :
    thermocouple_read r r 0 c =
      ({ c with thermo := { c.thermo with fault := 0 } }, some (tc_decode_temp r)) := by
  unfold thermocouple_read
  simp [tc_select, hb]

theorem crc_incr (now raw : ℕ) (c : Controller) (hraw : raw &&& 0x10000 = 0)
    (hg : c.deb.goodCount + 1 < 3) :
    clean_read_check now raw c =
      { c with thermo := { c.thermo with fault := 0 },
               deb := { c.deb with goodCount := c.deb.goodCount + 1 } } := by
  unfold clean_read_check
  rw [thermocouple_read_clean_eq _ _ hraw]
  unfold safety_check_thermocouple thermocouple_get_fault
  try dsimp only
  rw [if_pos rfl]
  try dsimp only
  rw [Nat.mod_eq_of_lt (by omega)]
  rw [if_neg (by omega)]

theorem crc_reset (now raw : ℕ) (c : Controller) (hraw : raw &&& 0x10000 = 0)
    (hg : 3 ≤ c.deb.goodCount + 1) (hg2 : c.deb.goodCount + 1 < 256) :
    clean_read_check now raw c =
      { c with thermo := { c.thermo with fault := 0 }, deb := debInit } := by
  unfold clean_read_check
  rw [thermocouple_read_clean_eq _ _ hraw]
  unfold safety_check_thermocouple thermocouple_get_fault
  try dsimp only
  rw [if_pos rfl]
  try dsimp only
  rw [Nat.mod_eq_of_lt (by omega)]
  rw [if_pos (by omega)]
  rfl

theorem clean3_clear (now raw : ℕ) (c : Controller) (hraw : raw &&& 0x10000 = 0)
    (hg : c.deb.goodCount = 0) :
    (read_check_cycles (clean_read_check now raw) 3 c).deb = debInit ∧
    (read_check_cycles (clean_read_check now raw) 3 c).safety = c.safety := by
  have h3 : read_check_cycles (clean_read_check now raw) 3 c =
      clean_read_check now raw (clean_read_check now raw (clean_read_check now raw c)) := rfl
  have e1 := crc_incr now raw c hraw (by omega)
  rw [h3, e1]
  have e2 := crc_incr now raw
    ({ c with thermo := { c.thermo with fault := 0 },
              deb := { c.deb with goodCount := c.deb.goodCount + 1 } }) hraw
    (by show c.deb.goodCount + 1 + 1 < 3; omega)
  rw [e2]
  have e3 := crc_reset now raw
    ({ c with thermo := { c.thermo with fault := 0 },
              deb := { c.deb with goodCount := c.deb.goodCount + 1 + 1 } }) hraw
    (by show 3 ≤ c.deb.goodCount + 1 + 1 + 1; omega)
    (by show c.deb.goodCount + 1 + 1 + 1 < 256; omega)
  rw [e3]
  exact ⟨rfl, rfl⟩

theorem frc_cycles_fields (now m : ℕ)
    (hb1 : tc_fault_frame m &&& 0x10000 ≠ 0) (hb2 : tc_fault_frame m &&& 0x07 = m)
    (hm0 : m ≠ 0) :
    ∀ (j : ℕ) (c : Controller), c.deb.lastFault = m → c.deb.faultCount + j < 10 →
      (read_check_cycles (fault_read_check now m) j c).safety = c.safety ∧
      (read_check_cycles (fault_read_check now m) j c).heater = c.heater ∧
      (read_check_cycles (fault_read_check now m) j c).deb.lastFault = m ∧
      (read_check_cycles (fault_read_check now m) j c).deb.faultCount = c.deb.faultCount + j := by
  intro j
  induction j with
  | zero =>
    intro c h1 h2
    exact ⟨rfl, rfl, h1, rfl⟩
  | succ n ih =>
    intro c h1 h2
    have hstep := frc_count now m c hb1 hb2 hm0 h1 (by omega)
    have hred : read_check_cycles (fault_read_check now m) (n + 1) c =
        read_check_cycles (fault_read_check now m) n (fault_read_check now m c) := rfl
    rw [hred, hstep]
    obtain ⟨ha, hhb, hc2, hd⟩ := ih
      ({ c with thermo := { c.thermo with fault := m },
                deb := ⟨c.deb.faultCount + 1, 0, m, c.deb.warningLogged⟩ }) rfl
      (by show c.deb.faultCount + 1 + n < 10; omega)
    refine ⟨?_, ?_, hc2, ?_⟩
    · rw [ha]
    · rw [hhb]
    · rw [hd]
      show c.deb.faultCount + 1 + n = c.deb.faultCount + (n + 1)
      omega

theorem read_check_cycles_succ_last (f : Controller → Controller) (n : ℕ) (c : Controller) :
    read_check_cycles f (n + 1) c = f (read_check_cycles f n c) := by
  induction n generalizing c with
  | zero => rfl
  | succ k ih =>
    show read_check_cycles f (k + 1) (f c) = f (read_check_cycles f (k + 1) c)
    rw [ih (f c)]
    rfl

-- ============== Concrete traces used by the claims ==============

/-- A trace that reaches ERROR from boot without a single valid
thermocouple sample: enter MANUAL, set heater power 60, then ten safety
ticks each reading frame 0x10001 (fault flag set, open-circuit bit): the
tenth tick latches THERMOCOUPLE_FAULT (critical fault, heater enabled). -/
def errTrace : List Act :=
  [Act.enterManual 0, Act.setHeaterPower 1 60,
   Act.safetyTick 2 65537 65537 0, Act.safetyTick 3 65537 65537 0,
   Act.safetyTick 4 65537 65537 0, Act.safetyTick 5 65537 65537 0,
   Act.safetyTick 6 65537 65537 0, Act.safetyTick 7 65537 65537 0,
   Act.safetyTick 8 65537 65537 0, Act.safetyTick 9 65537 65537 0,
   Act.safetyTick 10 65537 65537 0, Act.safetyTick 11 65537 65537 0]

/-- errTrace without its final safety tick: nine consecutive open-circuit
reads with the heater enabled; no fault latched yet. -/
def preLatchTrace : List Act :=
  [Act.enterManual 0, Act.setHeaterPower 1 60,
   Act.safetyTick 2 65537 65537 0, Act.safetyTick 3 65537 65537 0,
   Act.safetyTick 4 65537 65537 0, Act.safetyTick 5 65537 65537 0,
   Act.safetyTick 6 65537 65537 0, Act.safetyTick 7 65537 65537 0,
   Act.safetyTick 8 65537 65537 0, Act.safetyTick 9 65537 65537 0,
   Act.safetyTick 10 65537 65537 0]

-- ============== Claim theorems ==============

/-- C1: the spec says the FAN_INTERLOCK fault latches whenever the heater
is enabled and (the fan is disabled OR the fan speed is below 40), and that
in MANUAL with heater at 60 and fan set to 20 the phase becomes ERROR. The
code (safety.cpp line 133) instead requires the fan to be BOTH below 40 AND
disabled, so at the spec's own scenario no fault is latched: after entering
MANUAL, setting heater power 60, setting fan speed 20 and running a safety
tick, the phase is still MANUAL, no fault is active, the heater is enabled
and the enabled fan runs at 20 percent. -/
theorem c1_fan_interlock_not_latched :
    (applyActs [Act.enterManual 0, Act.setHeaterPower 10 60, Act.setFanSpeed 20 20,
        Act.safetyTick 30 65537 65537 0] initController).sm.current = .MANUAL ∧
    (applyActs [Act.enterManual 0, Act.setHeaterPower 10 60, Act.setFanSpeed 20 20,
        Act.safetyTick 30 65537 65537 0] initController).safety.faultActive = false ∧
    (applyActs [Act.enterManual 0, Act.setHeaterPower 10 60, Act.setFanSpeed 20 20,
        Act.safetyTick 30 65537 65537 0] initController).heater.enabled = true ∧
    (applyActs [Act.enterManual 0, Act.setHeaterPower 10 60, Act.setFanSpeed 20 20,
        Act.safetyTick 30 65537 65537 0] initController).fan.enabled = true ∧
    (applyActs [Act.enterManual 0, Act.setHeaterPower 10 60, Act.setFanSpeed 20 20,
        Act.safetyTick 30 65537 65537 0] initController).fan.speed = 20 ∧
    (applyActs [Act.enterManual 0, Act.setHeaterPower 10 60, Act.setFanSpeed 20 20,
        Act.safetyTick 30 65537 65537 0] initController).heater.power = 60 := by
  decide

/-- C2 counterexample: the claimed invariant (heater enabled outside MANUAL
implies fan speed at least 40) fails on a reachable state: start preheat,
then set the fan speed to 30. SET_FAN_SPEED in PREHEAT floors the value at
FAN_ROAST_MIN_DUTY = 30, not at MIN_FAN_WHEN_HEATING = 40, so the heater is
enabled in PREHEAT with the fan at 30 percent. -/
theorem c2_counterexample :
    (applyActs [Act.startPreheat 0 180, Act.setFanSpeed 10 30] initController).heater.enabled
      = true ∧
    (applyActs [Act.startPreheat 0 180, Act.setFanSpeed 10 30] initController).sm.current
      = .PREHEAT ∧
    (applyActs [Act.startPreheat 0 180, Act.setFanSpeed 10 30] initController).fan.speed = 30 ∧
    ¬(40 ≤ (applyActs [Act.startPreheat 0 180, Act.setFanSpeed 10 30] initController).fan.speed)
    := by
  decide

/-- C2 (amended): in every reachable state, if the heater is enabled and
the phase is not MANUAL, then the fan is enabled and the fan speed is at
least 30 (= FAN_ROAST_MIN_DUTY, the floor the code actually enforces for
SET_FAN_SPEED in PREHEAT and ROASTING). -/
theorem c2_min_fan_30 (acts : List Act) :
    (applyActs acts initController).heater.enabled = true →
    (applyActs acts initController).sm.current ≠ .MANUAL →
    (applyActs acts initController).fan.enabled = true ∧
      30 ≤ (applyActs acts initController).fan.speed := by
  intro hh hm
  obtain ⟨⟨h1, h2, _⟩, _⟩ := reachable_inv acts
  rcases h1 hh with hx | hx | hx
  · simpa [FAN_ROAST_MIN_DUTY] using h2 (Or.inl hx)
  · simpa [FAN_ROAST_MIN_DUTY] using h2 (Or.inr hx)
  · exact absurd hx hm

theorem c2_min_fan_30_witness :
    (applyActs [Act.startPreheat 0 180] initController).heater.enabled = true ∧
    (applyActs [Act.startPreheat 0 180] initController).sm.current ≠ .MANUAL ∧
    ((applyActs [Act.startPreheat 0 180] initController).fan.enabled = true ∧
      30 ≤ (applyActs [Act.startPreheat 0 180] initController).fan.speed) :=
  ⟨by decide, by decide, c2_min_fan_30 [Act.startPreheat 0 180] (by decide) (by decide)⟩

/-- C3: in every reachable state, if the phase is ERROR then the heater and
the fan are disabled and their output pins are zero (fan PWM pin 0, SSR
low); moreover after any further action taken from an ERROR state both
actuators are still disabled (the only accepted operation, CLEAR_FAULT,
moves to OFF with everything off). -/
theorem c3_error_outputs_off (acts : List Act) :
    ((applyActs acts initController).sm.current = .ERROR →
      (applyActs acts initController).heater.enabled = false ∧
      (applyActs acts initController).fan.enabled = false ∧
      (applyActs acts initController).fan.pwmPin = 0 ∧
      (applyActs acts initController).heater.ssr = false) ∧
    (∀ a : Act, (applyActs acts initController).sm.current = .ERROR →
      (applyAct a (applyActs acts initController)).heater.enabled = false ∧
      (applyAct a (applyActs acts initController)).fan.enabled = false) := by
  have h := reachable_inv acts
  constructor
  · intro hc
    have hoff := ctrlInv_actuators_off _ h (Or.inl hc)
    obtain ⟨⟨_, _, _, _, h5, h6, _⟩, _⟩ := h
    exact ⟨hoff.1, hoff.2, (h5 hoff.2).2, h6 hoff.1⟩
  · intro a hc
    have h2 := applyAct_inv a _ h
    have hph := error_phase_step a _ h hc
    exact ctrlInv_actuators_off _ h2 hph

theorem c3_error_outputs_off_witness :
    (applyActs errTrace initController).sm.current = .ERROR ∧
    ((applyActs errTrace initController).heater.enabled = false ∧
     (applyActs errTrace initController).fan.enabled = false ∧
     (applyActs errTrace initController).fan.pwmPin = 0 ∧
     (applyActs errTrace initController).heater.ssr = false) ∧
    ((applyAct (Act.setFanSpeed 1 80) (applyActs errTrace initController)).heater.enabled
        = false ∧
     (applyAct (Act.setFanSpeed 1 80) (applyActs errTrace initController)).fan.enabled
        = false) :=
  ⟨by decide,
   (c3_error_outputs_off errTrace).1 (by decide),
   (c3_error_outputs_off errTrace).2 (Act.setFanSpeed 1 80) (by decide)⟩

/-- C4: the spec says one error-type message is emitted when a new fault is
latched. The code never calls serial_send_error (the only function that
produces a message with wire type error): the safety tick that latches
THERMOCOUPLE_FAULT after nine prior open-circuit reads with the heater
enabled does latch the fault, disable the outputs and enter ERROR, and
emits several messages, but every message it emits has wire type log
(serial_send_log); none has the wire type error that the never-called
serial_send_error would produce. -/
theorem c4_no_error_message_on_latch :
    (safety_update 12 65537 65537 0
      (applyActs preLatchTrace initController)).1.safety.faultActive = true ∧
    (safety_update 12 65537 65537 0
      (applyActs preLatchTrace initController)).1.safety.faultCode = "THERMOCOUPLE_FAULT" ∧
    (safety_update 12 65537 65537 0
      (applyActs preLatchTrace initController)).1.sm.current = .ERROR ∧
    (safety_update 12 65537 65537 0
      (applyActs preLatchTrace initController)).1.heater.enabled = false ∧
    (safety_update 12 65537 65537 0
      (applyActs preLatchTrace initController)).1.fan.enabled = false ∧
    (applyActs preLatchTrace initController).safety.faultActive = false ∧
    (safety_update 12 65537 65537 0
      (applyActs preLatchTrace initController)).2.2 ≠ [] ∧
    ((safety_update 12 65537 65537 0
      (applyActs preLatchTrace initController)).2.2.all (fun m => m.mtype == "log")) = true ∧
    merror.mtype = "error" := by
  decide

/-- C5: for every finite input temperature and every sequence of calls to
the public PID operations starting from pid_init, the output stays within
[0, 255]; pid_update clamps P + Iterm + D into that range, and pid_disable
and pid_reset force the output to 0 from any PID state. -/
theorem c5_pid_output_bounds :
    (∀ ops : List PidOp,
      0 ≤ (applyPidOps ops pidInit).output ∧ (applyPidOps ops pidInit).output ≤ 255) ∧
    (∀ p : PidState, (pid_disable p).output = 0 ∧ (pid_reset p).output = 0) := by
  constructor
  · intro ops
    have step : ∀ p : PidState, 0 ≤ p.output ∧ p.output ≤ 255 →
        0 ≤ (applyPidOps ops p).output ∧ (applyPidOps ops p).output ≤ 255 := by
      induction ops with
      | nil => intro p h; exact h
      | cons o l ih => intro p h; exact ih _ (pid_output_bounds_step o p h)
    exact step pidInit (by norm_num [pidInit])
  · intro p
    exact ⟨rfl, rfl⟩

/-- C6 counterexample: the claimed range [100, 260] for the roast setpoint
fails: setSetpoint with value 500 is accepted in OFF (the handler only
requires a positive value) and stores 500. -/
theorem c6_counterexample :
    (applyActs [Act.setSetpoint 0 500] initController).sm.setpoint = 500 ∧
    ¬((applyActs [Act.setSetpoint 0 500] initController).sm.setpoint ≤ 260) := by
  constructor
  · rfl
  · rw [(by rfl :
      (applyActs [Act.setSetpoint 0 500] initController).sm.setpoint = (500 : ℚ))]
    norm_num

/-- C6 (amended): in every reachable state all fan and heater percentages
(the live fan speed, the heater display power, and the remembered manual
fan, manual heater and fan-only settings) lie in [0, 100] (they are Nat
fields, hence nonnegative), and setpoint_c and preheat_target_c are
positive; but no [100, 260] bound holds for the setpoints, since
startPreheat, loadBeans and setSetpoint accept any positive value. -/
theorem c6_percent_ranges (acts : List Act) :
    (applyActs acts initController).fan.speed ≤ 100 ∧
    (applyActs acts initController).heater.power ≤ 100 ∧
    (applyActs acts initController).sm.manualFanSpeed ≤ 100 ∧
    (applyActs acts initController).sm.manualHeaterPower ≤ 100 ∧
    (applyActs acts initController).sm.fanOnlySpeed ≤ 100 ∧
    0 < (applyActs acts initController).sm.setpoint ∧
    0 < (applyActs acts initController).sm.preheatTarget := by
  obtain ⟨⟨_, _, _, _, _, _, h7, h8, h9, h10, h11, h12, h13⟩, _⟩ := reachable_inv acts
  exact ⟨h7, h8, h9, h10, h11, h12, h13⟩

/-- C7 (amended): from a cleared debouncer a single fault read never
latches anything (the safety record and the phase are unchanged); ten
consecutive reads of the same fault mask latch THERMOCOUPLE_FAULT and
enter ERROR provided the mask is critical (open circuit, short to VCC or
unknown — not the short-to-GND warning) AND the heater is enabled, with
nothing latched through the first nine; and three consecutive clean reads
reset the debouncer without touching the safety record. The original
claim's unconditional latch after ten same-fault reads is refuted by
c7_counterexample. -/
theorem c7_debounce :
    (∀ (now m : ℕ) (c : Controller), m < 8 → c.deb = debInit →
      (fault_read_check now m c).safety = c.safety ∧
      (fault_read_check now m c).sm = c.sm) ∧
    (∀ (now m : ℕ) (c : Controller), m < 8 → m ≠ 0 → criticalMask m = true →
      c.deb = debInit → c.heater.enabled = true → c.safety.faultActive = false →
      (read_check_cycles (fault_read_check now m) 9 c).safety = c.safety ∧
      (read_check_cycles (fault_read_check now m) 10 c).safety.faultActive = true ∧
      (read_check_cycles (fault_read_check now m) 10 c).safety.faultCode
        = "THERMOCOUPLE_FAULT" ∧
      (read_check_cycles (fault_read_check now m) 10 c).sm.current = .ERROR) ∧
    (∀ (now raw : ℕ) (c : Controller), raw &&& 0x10000 = 0 → c.deb.goodCount = 0 →
      (read_check_cycles (clean_read_check now raw) 3 c).deb = debInit ∧
      (read_check_cycles (clean_read_check now raw) 3 c).safety = c.safety) := by
  refine ⟨?_, ?_, ?_⟩
  · intro now m c hm hdeb
    by_cases hm0 : m = 0
    · subst hm0
      exact frc_zero now c
    · have hb1 : tc_fault_frame m &&& 0x10000 ≠ 0 := by interval_cases m <;> decide
      have hb2 : tc_fault_frame m &&& 0x07 = m := by interval_cases m <;> decide
      have hlast : c.deb.lastFault ≠ m := by
        rw [hdeb]
        exact fun h => hm0 h.symm
      rw [frc_first now m c hb1 hb2 hm0 hlast]
      exact ⟨rfl, rfl⟩
  · intro now m c hm hm0 hcrit hdeb hhe0 hact
    have hb1 : tc_fault_frame m &&& 0x10000 ≠ 0 := by interval_cases m <;> decide
    have hb2 : tc_fault_frame m &&& 0x07 = m := by interval_cases m <;> decide
    have hlast : c.deb.lastFault ≠ m := by
      rw [hdeb]
      exact fun h => hm0 h.symm
    have h1 := frc_first now m c hb1 hb2 hm0 hlast
    have h9 : read_check_cycles (fault_read_check now m) 9 c =
        read_check_cycles (fault_read_check now m) 8 (fault_read_check now m c) := rfl
    rw [h1] at h9
    obtain ⟨hsa, hhe, hlf, hfc⟩ := frc_cycles_fields now m hb1 hb2 hm0 8
      ({ c with thermo := { c.thermo with fault := m }, deb := ⟨1, 0, m, false⟩ }) rfl
      (by show 1 + 8 < 10; omega)
    have hds : (read_check_cycles (fault_read_check now m) 9 c).safety = c.safety := by
      rw [h9, hsa]
    have hdh : (read_check_cycles (fault_read_check now m) 9 c).heater = c.heater := by
      rw [h9, hhe]
    have hdl : (read_check_cycles (fault_read_check now m) 9 c).deb.lastFault = m := by
      rw [h9, hlf]
    have hdc : (read_check_cycles (fault_read_check now m) 9 c).deb.faultCount = 9 := by
      rw [h9, hfc]
    obtain ⟨hA, hB, hC⟩ := frc_latch now m _ hb1 hb2 hm0 hdl hdc hcrit
      (by rw [hdh]; exact hhe0) (by rw [hds]; exact hact)
    have h10 := read_check_cycles_succ_last (fault_read_check now m) 9 c
    refine ⟨hds, ?_, ?_, ?_⟩ <;> rw [h10]
    · exact hA
    · exact hB
    · exact hC
  · intro now raw c hraw hg
    exact clean3_clear now raw c hraw hg

theorem c7_debounce_witness :
    ((1 : ℕ) < 8 ∧ (1 : ℕ) ≠ 0 ∧ criticalMask 1 = true ∧
     (applyActs [Act.enterManual 0, Act.setHeaterPower 1 60] initController).deb = debInit ∧
     (applyActs [Act.enterManual 0, Act.setHeaterPower 1 60] initController).heater.enabled
        = true ∧
     (applyActs [Act.enterManual 0, Act.setHeaterPower 1 60] initController).safety.faultActive
        = false) ∧
    ((read_check_cycles (fault_read_check 5 1) 10
        (applyActs [Act.enterManual 0, Act.setHeaterPower 1 60] initController)).safety.faultActive
        = true ∧
     (read_check_cycles (fault_read_check 5 1) 10
        (applyActs [Act.enterManual 0, Act.setHeaterPower 1 60] initController)).sm.current
        = .ERROR) :=
  ⟨⟨by decide, by decide, by decide, by decide, by decide, by decide⟩,
   ⟨(c7_debounce.2.1 5 1 _ (by decide) (by decide) (by decide) (by decide) (by decide)
      (by decide)).2.1,
    (c7_debounce.2.1 5 1 _ (by decide) (by decide) (by decide) (by decide) (by decide)
      (by decide)).2.2.2⟩⟩

/-- C7 counterexample to the original claim: ten consecutive reads of the
same fault mask 2 (short to GND) with the heater enabled do NOT latch a
fault: the code treats mask 2 as a warning only, so the phase stays MANUAL
and no fault is active. -/
theorem c7_counterexample :
    criticalMask 2 = false ∧
    (applyActs [Act.enterManual 0, Act.setHeaterPower 1 60] initController).heater.enabled
      = true ∧
    (read_check_cycles (fault_read_check 5 2) 10
      (applyActs [Act.enterManual 0, Act.setHeaterPower 1 60] initController)).safety.faultActive
      = false ∧
    (read_check_cycles (fault_read_check 5 2) 10
      (applyActs [Act.enterManual 0, Act.setHeaterPower 1 60] initController)).sm.current
      = .MANUAL := by
  decide

/-- C8 (amended): SET_SETPOINT(v) is accepted exactly in OFF, PREHEAT and
ROASTING and only for v > 0; when rejected the controller is unchanged and
only the dispatch debug line is logged. When accepted, the handler ALWAYS
overwrites setpoint_c (also in PREHEAT, where the original claim said it
is left unchanged — refuted by c8_counterexample); in PREHEAT it
additionally overwrites preheat_target_c and the PID setpoint, in ROASTING
it additionally overwrites the PID setpoint, and in OFF it touches neither
the preheat target nor the PID. -/
theorem c8_set_setpoint_frame (now : ℕ) (v : ℚ) (c : Controller) :
    (¬(state_allows_setpoint_change c = true ∧ 0 < v) →
      state_handle_event now .SET_SETPOINT v c = (c, [mlog "debug" "STATE"])) ∧
    (state_allows_setpoint_change c = true → 0 < v → c.sm.current = .PREHEAT →
      (state_handle_event now .SET_SETPOINT v c).1 =
        { c with sm := { c.sm with setpoint := v, preheatTarget := v },
                 pid := pid_set_setpoint v c.pid }) ∧
    (state_allows_setpoint_change c = true → 0 < v → c.sm.current = .ROASTING →
      (state_handle_event now .SET_SETPOINT v c).1 =
        { c with sm := { c.sm with setpoint := v },
                 pid := pid_set_setpoint v c.pid }) ∧
    (state_allows_setpoint_change c = true → 0 < v → c.sm.current = .OFF →
      (state_handle_event now .SET_SETPOINT v c).1 =
        { c with sm := { c.sm with setpoint := v } }) := by
  refine ⟨?_, ?_, ?_, ?_⟩
  · intro h
    unfold state_handle_event
    dsimp only
    rw [if_neg h]
  · intro ha hv hp
    unfold state_handle_event
    dsimp only
    rw [if_pos ⟨ha, hv⟩]
    try dsimp only
    rw [if_pos hp]
  · intro ha hv hp
    unfold state_handle_event
    dsimp only
    rw [if_pos ⟨ha, hv⟩]
    try dsimp only
    rw [if_neg (show ¬c.sm.current = .PREHEAT by simp [hp]), if_pos hp]
  · intro ha hv hp
    unfold state_handle_event
    dsimp only
    rw [if_pos ⟨ha, hv⟩]
    try dsimp only
    rw [if_neg (show ¬c.sm.current = .PREHEAT by simp [hp]),
        if_neg (show ¬c.sm.current = .ROASTING by simp [hp])]

theorem c8_set_setpoint_frame_witness :
    (state_allows_setpoint_change (applyActs [Act.startPreheat 0 180] initController) = true ∧
     (0 : ℚ) < 150 ∧
     (applyActs [Act.startPreheat 0 180] initController).sm.current = .PREHEAT) ∧
    (state_handle_event 1 .SET_SETPOINT 150
        (applyActs [Act.startPreheat 0 180] initController)).1 =
      { applyActs [Act.startPreheat 0 180] initController with
          sm := { (applyActs [Act.startPreheat 0 180] initController).sm with
                    setpoint := 150, preheatTarget := 150 },
          pid := pid_set_setpoint 150 (applyActs [Act.startPreheat 0 180] initController).pid } :=
  ⟨⟨by decide, by decide, by decide⟩,
   (c8_set_setpoint_frame 1 150 (applyActs [Act.startPreheat 0 180] initController)).2.1
     (by decide) (by decide) (by decide)⟩

/-- C8 counterexample to the original claim: handled in PREHEAT,
SET_SETPOINT does NOT leave setpoint_c unchanged: after startPreheat the
roast setpoint is the 200 degC default, and setSetpoint 150 in PREHEAT
overwrites it to 150 (along with the preheat target). -/
theorem c8_counterexample :
    (applyActs [Act.startPreheat 0 180] initController).sm.current = .PREHEAT ∧
    (applyActs [Act.startPreheat 0 180] initController).sm.setpoint = 200 ∧
    (applyActs [Act.startPreheat 0 180, Act.setSetpoint 1 150] initController).sm.setpoint
      = 150 ∧
    (applyActs [Act.startPreheat 0 180, Act.setSetpoint 1 150] initController).sm.preheatTarget
      = 150 := by
  decide

/-- C9 (amended): in every roasterState message the chamberTemp field
always carries the filtered chamber temperature — it is never null, even
while the thermocouple is faulted, because the filtered reading is a plain
number (on an invalid raw read the last filtered value is returned, 0
before the first valid sample) and the isnan test of the serializer is
therefore never true (refuting the original claim's null case, see
c9_counterexample); the error field is a {code, message, fatal} object
exactly while the phase is ERROR and null otherwise. -/
theorem c9_telemetry_fields (now r1 r2 r3 s1 s2 s3 : ℕ) (ht : ℚ) (c : Controller) :
    (serial_send_state now r1 r2 r3 s1 s2 s3 ht c).2.1.chamberTemp =
      some (thermocouple_read_filtered r1 r2 r3 c).2 ∧
    ((serial_send_state now r1 r2 r3 s1 s2 s3 ht c).2.1.error ≠ none ↔
      c.sm.current = .ERROR) ∧
    (c.sm.current = .ERROR →
      (serial_send_state now r1 r2 r3 s1 s2 s3 ht c).2.1.error =
        some (c.sm.errorCode, c.sm.errorMessage, c.sm.errorFatal)) := by
  rcases hR : thermocouple_read_filtered r1 r2 r3 c with ⟨c1, t1⟩
  have hc1 : c1.sm = c.sm := by
    obtain ⟨t0, ht0⟩ := read_filtered_fst r1 r2 r3 c
    rw [hR] at ht0
    dsimp only at ht0
    rw [ht0]
  rcases hC : calculate_ror now s1 s2 s3 c1 with ⟨c2, rr⟩
  have hc2 : c2.sm = c.sm := by
    obtain ⟨t2, r2x, ht2⟩ := calc_ror_shape now s1 s2 s3 c1
    rw [hC] at ht2
    dsimp only at ht2
    rw [ht2]
    exact hc1
  have hcb : (serial_send_state now r1 r2 r3 s1 s2 s3 ht c).2.1.chamberTemp = some t1 := by
    unfold serial_send_state
    simp only [hR, hC]
  have herr : (serial_send_state now r1 r2 r3 s1 s2 s3 ht c).2.1.error =
      (if c.sm.current = .ERROR then
        some (c.sm.errorCode, c.sm.errorMessage, c.sm.errorFatal) else none) := by
    unfold serial_send_state
    simp only [hR, hC]
    rw [hc2]
  refine ⟨?_, ?_, ?_⟩
  · rw [hcb]
  · rw [herr]
    by_cases hE : c.sm.current = .ERROR
    · simp [hE]
    · simp [hE]
  · intro hE
    rw [herr, if_pos hE]

theorem c9_telemetry_fields_witness :
    ((applyActs errTrace initController).sm.current = .ERROR) ∧
    ((serial_send_state 20 65537 65537 0 65537 65537 0 25
        (applyActs errTrace initController)).2.1.error =
      some ((applyActs errTrace initController).sm.errorCode,
            (applyActs errTrace initController).sm.errorMessage,
            (applyActs errTrace initController).sm.errorFatal)) :=
  ⟨by decide,
   (c9_telemetry_fields 20 65537 65537 0 65537 65537 0 25
      (applyActs errTrace initController)).2.2 (by decide)⟩

/-- C9 counterexample to the original claim: at boot, a roasterState
acquisition whose raw reads all carry the fault flag (open circuit) leaves
the thermocouple faulted (fault register 1), yet chamberTemp is not null:
it carries the last filtered value 0. -/
theorem c9_counterexample :
    (serial_send_state 0 65537 65537 0 65537 65537 0 25 initController).1.thermo.fault = 1 ∧
    (serial_send_state 0 65537 65537 0 65537 65537 0 25
        initController).2.1.chamberTemp = some 0 ∧
    (serial_send_state 0 65537 65537 0 65537 65537 0 25
        initController).2.1.chamberTemp ≠ none := by
  decide

/-- C10: if the filter has never been seeded by a valid reading since boot
(filter uninitialized, stored filtered value 0) and the current acquisition
is also invalid (the selected frame has the fault flag set), then
thermocouple_read_filtered returns 0, so a single state_update tick taken
in COOLING sees a temperature below the 50 degC cooling target and
transitions the phase to OFF regardless of the actual chamber
temperature. -/
theorem c10_uninit_filter_cooling_to_off (now r1 r2 r3 : ℕ) (c : Controller)
    (hc : c.sm.current = .COOLING) (hfi : c.thermo.filterInitialized = false)
    (hf : c.thermo.filteredTemp = 0) (hb : tc_select r1 r2 r3 &&& 0x10000 ≠ 0) :
    (thermocouple_read_filtered r1 r2 r3 c).2 = 0 ∧
    (state_update now r1 r2 r3 c).1.sm.current = .OFF := by
  have hread : thermocouple_read r1 r2 r3 c =
      ({ c with thermo := { c.thermo with fault := tc_select r1 r2 r3 &&& 0x07 } }, none) := by
    unfold thermocouple_read
    rw [if_pos hb]
  have hfil : thermocouple_read_filtered r1 r2 r3 c =
      ({ c with thermo := { c.thermo with fault := tc_select r1 r2 r3 &&& 0x07 } },
        c.thermo.filteredTemp) := by
    unfold thermocouple_read_filtered
    rw [hread]
  constructor
  · rw [hfil]
    exact hf
  · unfold state_update
    rw [hfil]
    dsimp only
    rw [hc]
    dsimp only
    rw [hf]
    rw [if_pos (show (0 : ℚ) < COOLING_TARGET_TEMP by norm_num [COOLING_TARGET_TEMP])]
    unfold state_handle_event
    dsimp only
    rw [if_pos hc]
    dsimp only
    exact enter_state_current now .OFF _

theorem c10_uninit_filter_cooling_to_off_witness :
    (({ initController with
          sm := { initController.sm with current := .COOLING } } : Controller).sm.current
        = .COOLING ∧
     ({ initController with
          sm := { initController.sm with current := .COOLING } } : Controller).thermo.filterInitialized
        = false ∧
     ({ initController with
          sm := { initController.sm with current := .COOLING } } : Controller).thermo.filteredTemp
        = 0 ∧
     tc_select 65537 65537 0 &&& 0x10000 ≠ 0) ∧
    ((thermocouple_read_filtered 65537 65537 0
        ({ initController with
            sm := { initController.sm with current := .COOLING } } : Controller)).2 = 0 ∧
     (state_update 3 65537 65537 0
        ({ initController with
            sm := { initController.sm with current := .COOLING } } : Controller)).1.sm.current
        = .OFF) :=
  ⟨⟨rfl, rfl, rfl, by decide⟩,
   c10_uninit_filter_cooling_to_off 3 65537 65537 0
     ({ initController with sm := { initController.sm with current := .COOLING } })
     rfl rfl rfl (by decide)⟩
